import Mathlib

/-!
Verification of the adaptive terminal-layout engine of `worktrunk`
(`src/commands/list/layout.rs`) and of its status-symbol renderer.

The layout code is embedded faithfully from the Rust source.  External
collaborators that the source delegates to (git plumbing, display-width
measurement of arbitrary strings via the `unicode_width` crate, relative-time
formatting, path shortening) are out of scope of the layout engine; a row
therefore carries the *observed* display widths those collaborators produce,
while every computation performed by `layout.rs` itself (50-character message
capping, decimal digit counts, header fitting, the two-phase budget
allocation, position walking) is translated operation by operation.

All header strings used by the source consist of display-width-1 characters
("±", "↕" have unicode display width 1), so the display width of a header
equals its character count, `String.length`.
-/

namespace Worktrunk

/-- A row of the listing (`ListItem` in the source).  The fields are the
observations `calculate_column_widths` / `calculate_responsive_layout` make of
an item:

* `branchNameWidth` — display width of `item.branch_name()`;
* `timeWidth` — display width of `format_relative_time(commit.timestamp)`;
* `commitMessage` — the characters of `commit.commit_message`;
* `isPrimary` — `item.is_primary()`;
* `ahead`/`behind` — `item.counts()`;
* `workingTreeDiff` — `worktree_info.working_tree_diff`, `none` for branch
  rows (no worktree info);
* `branchDiff` — `item.branch_diff().diff`;
* `upstream` — the `(ahead, behind)` pair of `upstream.active()`, `none`
  when no upstream is active;
* `statesWidth` — `none` when `format_all_states(item)` is empty, otherwise
  `some` of its display width;
* `prStatus` — `item.pr_status().is_some()`;
* `pathWidth` — display width of the shortened worktree path
  (`shorten_path(path, common_prefix)`), `none` for rows without a worktree
  path. -/
structure Row where
  branchNameWidth : Nat
  timeWidth : Nat
  commitMessage : List Char
  isPrimary : Bool
  ahead : Nat
  behind : Nat
  workingTreeDiff : Option (Nat × Nat)
  branchDiff : Nat × Nat
  upstream : Option (Nat × Nat)
  statesWidth : Option Nat
  prStatus : Bool
  pathWidth : Option Nat
deriving DecidableEq

/-- Width of short commit hash display (first 8 hex characters). -/
def COMMIT_HASH_WIDTH : Nat := 8

def HEADER_BRANCH : String := "Branch"
def HEADER_WORKING_DIFF : String := "Working ±"
def HEADER_AHEAD_BEHIND : String := "Main ↕"
def HEADER_BRANCH_DIFF : String := "Main ±"
def HEADER_STATE : String := "State"
def HEADER_PATH : String := "Path"
def HEADER_UPSTREAM : String := "Remote ↕"
def HEADER_AGE : String := "Age"
def HEADER_CI : String := "CI"
def HEADER_COMMIT : String := "Commit"
def HEADER_MESSAGE : String := "Message"

/-- `fit_header`: a column width is at least as wide as its header
(`data_width.max(header.width())`; all headers have display width =
`String.length`, see the module comment). -/
def fit_header (header : String) (data_width : Nat) : Nat :=
  max data_width header.length

/-- Decimal digit count, the embedding of Rust `n.to_string().len()` for a
nonnegative integer. -/
def decimalLen (n : Nat) : Nat := (Nat.repr n).length

/-- Width information for two-part columns (`DiffWidths` in the source). -/
structure DiffWidths where
  total : Nat
  added_digits : Nat
  deleted_digits : Nat
deriving DecidableEq

def DiffWidths.zero : DiffWidths := ⟨0, 0, 0⟩

/-- Per-column final widths (`ColumnWidths` in the source). -/
structure ColumnWidths where
  branch : Nat
  time : Nat
  ci_status : Nat
  message : Nat
  ahead_behind : DiffWidths
  working_diff : DiffWidths
  branch_diff : DiffWidths
  upstream : DiffWidths
  states : Nat
  commit : Nat
  path : Nat
deriving DecidableEq

/-- Tracks which columns have actual data (`ColumnDataFlags` in the source). -/
structure ColumnDataFlags where
  working_diff : Bool
  ahead_behind : Bool
  branch_diff : Bool
  upstream : Bool
  states : Bool
  ci_status : Bool
deriving DecidableEq

/-- Absolute column positions (`ColumnPositions` in the source). -/
structure ColumnPositions where
  branch : Nat
  working_diff : Nat
  ahead_behind : Nat
  branch_diff : Nat
  states : Nat
  path : Nat
  upstream : Nat
  time : Nat
  ci_status : Nat
  commit : Nat
  message : Nat
deriving DecidableEq

/-- Layout result (`LayoutConfig` in the source; the `common_prefix : PathBuf`
field is produced by the out-of-scope path collaborator and is omitted). -/
structure LayoutConfig where
  widths : ColumnWidths
  positions : ColumnPositions
  max_message_len : Nat
deriving DecidableEq

/-- The running maxima tracked by the loop of `calculate_column_widths`. -/
structure WidthMaxes where
  max_branch : Nat
  max_time : Nat
  max_message : Nat
  max_states : Nat
  max_wt_added_digits : Nat
  max_wt_deleted_digits : Nat
  max_br_added_digits : Nat
  max_br_deleted_digits : Nat
  max_ahead_digits : Nat
  max_behind_digits : Nat
  max_upstream_ahead_digits : Nat
  max_upstream_behind_digits : Nat
deriving DecidableEq

def WidthMaxes.init : WidthMaxes := ⟨0, 0, 0, 0, 0, 0, 0, 0, 0, 0, 0, 0⟩

/-- One iteration of the `for item in items` loop of
`calculate_column_widths`. -/
def width_maxes_step (acc : WidthMaxes) (item : Row) : WidthMaxes where
  max_branch := max acc.max_branch item.branchNameWidth
  max_time := max acc.max_time item.timeWidth
  max_message := max acc.max_message (item.commitMessage.take 50).length
  max_ahead_digits :=
    if item.isPrimary = false ∧ (0 < item.ahead ∨ 0 < item.behind) then
      max acc.max_ahead_digits (decimalLen item.ahead)
    else acc.max_ahead_digits
  max_behind_digits :=
    if item.isPrimary = false ∧ (0 < item.ahead ∨ 0 < item.behind) then
      max acc.max_behind_digits (decimalLen item.behind)
    else acc.max_behind_digits
  max_wt_added_digits :=
    match item.workingTreeDiff with
    | some d =>
      if 0 < d.1 ∨ 0 < d.2 then max acc.max_wt_added_digits (decimalLen d.1)
      else acc.max_wt_added_digits
    | none => acc.max_wt_added_digits
  max_wt_deleted_digits :=
    match item.workingTreeDiff with
    | some d =>
      if 0 < d.1 ∨ 0 < d.2 then max acc.max_wt_deleted_digits (decimalLen d.2)
      else acc.max_wt_deleted_digits
    | none => acc.max_wt_deleted_digits
  max_br_added_digits :=
    if item.isPrimary = false ∧ (0 < item.branchDiff.1 ∨ 0 < item.branchDiff.2) then
      max acc.max_br_added_digits (decimalLen item.branchDiff.1)
    else acc.max_br_added_digits
  max_br_deleted_digits :=
    if item.isPrimary = false ∧ (0 < item.branchDiff.1 ∨ 0 < item.branchDiff.2) then
      max acc.max_br_deleted_digits (decimalLen item.branchDiff.2)
    else acc.max_br_deleted_digits
  max_upstream_ahead_digits :=
    match item.upstream with
    | some u => max acc.max_upstream_ahead_digits (decimalLen u.1)
    | none => acc.max_upstream_ahead_digits
  max_upstream_behind_digits :=
    match item.upstream with
    | some u => max acc.max_upstream_behind_digits (decimalLen u.2)
    | none => acc.max_upstream_behind_digits
  max_states :=
    match item.statesWidth with
    | some sw => max acc.max_states sw
    | none => acc.max_states

/-- `calculate_column_widths`: reduce the rows to ideal widths and has-data
flags. -/
def calculate_column_widths (items : List Row) (fetch_ci : Bool) :
    ColumnWidths × ColumnDataFlags :=
  let m := items.foldl width_maxes_step WidthMaxes.init
  let has_working_diff_data := m.max_wt_added_digits != 0 || m.max_wt_deleted_digits != 0
  let working_diff_data_width :=
    if has_working_diff_data then
      1 + m.max_wt_added_digits + 1 + 1 + m.max_wt_deleted_digits
    else 0
  let working_diff_total := fit_header HEADER_WORKING_DIFF working_diff_data_width
  let has_branch_diff_data := m.max_br_added_digits != 0 || m.max_br_deleted_digits != 0
  let branch_diff_data_width :=
    if has_branch_diff_data then
      1 + m.max_br_added_digits + 1 + 1 + m.max_br_deleted_digits
    else 0
  let branch_diff_total := fit_header HEADER_BRANCH_DIFF branch_diff_data_width
  let has_ahead_behind_data := m.max_ahead_digits != 0 || m.max_behind_digits != 0
  let ahead_behind_data_width :=
    if has_ahead_behind_data then
      1 + m.max_ahead_digits + 1 + 1 + m.max_behind_digits
    else 0
  let ahead_behind_total := fit_header HEADER_AHEAD_BEHIND ahead_behind_data_width
  let has_upstream_data :=
    m.max_upstream_ahead_digits != 0 || m.max_upstream_behind_digits != 0
  let upstream_data_width :=
    if has_upstream_data then
      1 + m.max_upstream_ahead_digits + 1 + 1 + m.max_upstream_behind_digits
    else 0
  let upstream_total := fit_header HEADER_UPSTREAM upstream_data_width
  let has_states_data := m.max_states != 0
  let final_states := fit_header HEADER_STATE m.max_states
  let has_ci_status := fetch_ci && items.any (fun item => item.prStatus)
  let ci_status_width := 2
  let widths : ColumnWidths :=
    { branch := fit_header HEADER_BRANCH m.max_branch
      time := fit_header HEADER_AGE m.max_time
      ci_status := fit_header HEADER_CI ci_status_width
      message := fit_header HEADER_MESSAGE m.max_message
      ahead_behind :=
        ⟨ahead_behind_total, m.max_ahead_digits, m.max_behind_digits⟩
      working_diff :=
        ⟨working_diff_total, m.max_wt_added_digits, m.max_wt_deleted_digits⟩
      branch_diff :=
        ⟨branch_diff_total, m.max_br_added_digits, m.max_br_deleted_digits⟩
      upstream :=
        ⟨upstream_total, m.max_upstream_ahead_digits, m.max_upstream_behind_digits⟩
      states := final_states
      commit := COMMIT_HASH_WIDTH
      path := 0 }
  let data_flags : ColumnDataFlags :=
    { working_diff := has_working_diff_data
      ahead_behind := has_ahead_behind_data
      branch_diff := has_branch_diff_data
      upstream := has_upstream_data
      states := has_states_data
      ci_status := has_ci_status }
  (widths, data_flags)

/-- `try_allocate`: try to subtract `ideal_width` (plus the gap unless the
column is the first) from the budget; returns `(allocated width, new budget)`.
Rust mutates `remaining` in place; here the new budget is returned. -/
def try_allocate (remaining ideal_width spacing : Nat) (is_first : Bool) :
    Nat × Nat :=
  if ideal_width = 0 then (0, remaining)
  else
    let required := if is_first then ideal_width else ideal_width + spacing
    if remaining < required then (0, remaining)
    else (ideal_width, remaining - required)

/-- A guarded non-first `try_allocate`: the embedding of the source pattern
`if cond { try_allocate(&mut remaining, …) }` — when the guard is false the
budget is untouched and nothing is allocated. -/
def alloc_if (cond : Bool) (remaining ideal_width spacing : Nat) : Nat × Nat :=
  if cond then try_allocate remaining ideal_width spacing false
  else (0, remaining)

def MIN_MESSAGE : Nat := 20
def PREFERRED_MESSAGE : Nat := 50
def MAX_MESSAGE : Nat := 100

/-- The message-placement step of `calculate_responsive_layout` (lines
565-580): tiered target — preferred width if it fits, else the remaining
budget (capped by the ideal message width) if at least the floor fits, else
hidden.  Returns `(widths.message, new remaining)`. -/
def allocate_message (remaining spacing idealMessage : Nat) : Nat × Nat :=
  let message_width :=
    if PREFERRED_MESSAGE + spacing ≤ remaining then PREFERRED_MESSAGE
    else if MIN_MESSAGE + spacing ≤ remaining then
      min (remaining - spacing) idealMessage
    else 0
  if 0 < message_width then
    (min message_width idealMessage, remaining - (message_width + spacing))
  else (0, remaining)

/-- Phase 1 of `calculate_responsive_layout` (columns with data, in priority
order) followed by message placement.  Returns the widths so far and the
budget remaining after message placement. -/
def phase1AndMessage (ideal : ColumnWidths) (flags : ColumnDataFlags)
    (show_full : Bool) (max_path_width commit_width terminal_width : Nat) :
    ColumnWidths × Nat :=
  let spacing := 2
  let aBranch := try_allocate terminal_width ideal.branch spacing true
  let aWd := alloc_if flags.working_diff aBranch.2 ideal.working_diff.total spacing
  let aAb := alloc_if flags.ahead_behind aWd.2 ideal.ahead_behind.total spacing
  let aBd := alloc_if (show_full && flags.branch_diff) aAb.2 ideal.branch_diff.total spacing
  let aSt := alloc_if flags.states aBd.2 ideal.states spacing
  let aPath := try_allocate aSt.2 max_path_width spacing false
  let aUp := alloc_if flags.upstream aPath.2 ideal.upstream.total spacing
  let aTime := try_allocate aUp.2 ideal.time spacing false
  let aCi := alloc_if flags.ci_status aTime.2 ideal.ci_status spacing
  let aCommit := try_allocate aCi.2 commit_width spacing false
  let aMsg := allocate_message aCommit.2 spacing ideal.message
  let widths : ColumnWidths :=
    { branch := aBranch.1
      working_diff := if 0 < aWd.1 then ideal.working_diff else DiffWidths.zero
      ahead_behind := if 0 < aAb.1 then ideal.ahead_behind else DiffWidths.zero
      branch_diff := if 0 < aBd.1 then ideal.branch_diff else DiffWidths.zero
      states := aSt.1
      path := aPath.1
      upstream := if 0 < aUp.1 then ideal.upstream else DiffWidths.zero
      time := aTime.1
      ci_status := aCi.1
      commit := aCommit.1
      message := aMsg.1 }
  (widths, aMsg.2)

/-- Phase 2 of `calculate_responsive_layout`: re-walk the priority order for
the columns without data, with the budget left after message placement. -/
def phase2 (ideal : ColumnWidths) (flags : ColumnDataFlags)
    (show_full fetch_ci : Bool) (w : ColumnWidths) (remaining : Nat) :
    ColumnWidths × Nat :=
  let spacing := 2
  let bWd := alloc_if (!flags.working_diff) remaining ideal.working_diff.total spacing
  let bAb := alloc_if (!flags.ahead_behind) bWd.2 ideal.ahead_behind.total spacing
  let bBd := alloc_if (show_full && !flags.branch_diff) bAb.2 ideal.branch_diff.total spacing
  let bSt := alloc_if (!flags.states) bBd.2 ideal.states spacing
  let bUp := alloc_if (!flags.upstream) bSt.2 ideal.upstream.total spacing
  let bCi := alloc_if (fetch_ci && !flags.ci_status) bUp.2 ideal.ci_status spacing
  let widths : ColumnWidths :=
    { w with
      working_diff := if 0 < bWd.1 then ideal.working_diff else w.working_diff
      ahead_behind := if 0 < bAb.1 then ideal.ahead_behind else w.ahead_behind
      branch_diff := if 0 < bBd.1 then ideal.branch_diff else w.branch_diff
      states := if flags.states then w.states else bSt.1
      upstream := if 0 < bUp.1 then ideal.upstream else w.upstream
      ci_status := if fetch_ci && !flags.ci_status then bCi.1 else w.ci_status }
  (widths, bCi.2)

/-- The final message expansion of `calculate_responsive_layout`: any leftover
budget is given back to the message column, up to `MAX_MESSAGE`. -/
def expandMessage (w : ColumnWidths) (remaining : Nat) : ColumnWidths :=
  if 0 < w.message ∧ w.message < MAX_MESSAGE ∧ 0 < remaining then
    { w with message := w.message + min remaining (MAX_MESSAGE - w.message) }
  else w

/-- The `advance` closure of the position walk: given the running `pos` and a
column width, returns `(column start position, new pos)`; a hidden column
(width 0) gets position 0 and leaves `pos` unchanged (gap is 2). -/
def advance (pos width : Nat) : Nat × Nat :=
  if width = 0 then (0, pos)
  else
    let column_pos := if pos = 0 then 0 else pos + 2
    (column_pos, column_pos + width)

/-- Absolute column positions: a single left-to-right walk accumulating
width + gap over the canonical column order. -/
def computePositions (w : ColumnWidths) : ColumnPositions :=
  let p1 := advance 0 w.branch
  let p2 := advance p1.2 w.working_diff.total
  let p3 := advance p2.2 w.ahead_behind.total
  let p4 := advance p3.2 w.branch_diff.total
  let p5 := advance p4.2 w.states
  let p6 := advance p5.2 w.path
  let p7 := advance p6.2 w.upstream.total
  let p8 := advance p7.2 w.time
  let p9 := advance p8.2 w.ci_status
  let p10 := advance p9.2 w.commit
  let p11 := advance p10.2 w.message
  { branch := p1.1
    working_diff := p2.1
    ahead_behind := p3.1
    branch_diff := p4.1
    states := p5.1
    path := p6.1
    upstream := p7.1
    time := p8.1
    ci_status := p9.1
    commit := p10.1
    message := p11.1 }

/-- Maximum display width of the shortened worktree paths
(`.map(shorten_path(..).width()).max().unwrap_or(0)`). -/
def path_data_width (items : List Row) : Nat :=
  (items.filterMap Row.pathWidth).foldl max 0

/-- `calculate_responsive_layout`: the full two-phase priority allocation.
The source reads the terminal width from an external probe
(`get_terminal_width()`); here it is the `terminal_width` argument. -/
def calculate_responsive_layout (items : List Row) (show_full fetch_ci : Bool)
    (terminal_width : Nat) : LayoutConfig :=
  let iw := calculate_column_widths items fetch_ci
  let ideal := iw.1
  let data_flags := iw.2
  let max_path_width := fit_header HEADER_PATH (path_data_width items)
  let commit_width := fit_header HEADER_COMMIT COMMIT_HASH_WIDTH
  let p1 := phase1AndMessage ideal data_flags show_full max_path_width
    commit_width terminal_width
  let p2 := phase2 ideal data_flags show_full fetch_ci p1.1 p1.2
  let final_widths := expandMessage p2.1 p2.2
  { widths := final_widths
    positions := computePositions final_widths
    max_message_len := final_widths.message }

/-- The budget remaining after message placement (the value of `remaining` at
the `=== PHASE 2 ===` comment of the source), as an observer on the same
pipeline. -/
def remaining_after_message (items : List Row) (show_full fetch_ci : Bool)
    (terminal_width : Nat) : Nat :=
  let iw := calculate_column_widths items fetch_ci
  (phase1AndMessage iw.1 iw.2 show_full
    (fit_header HEADER_PATH (path_data_width items))
    (fit_header HEADER_COMMIT COMMIT_HASH_WIDTH) terminal_width).2

/-- Modelled from the spec: the per-row status symbols (`StatusSymbols` in
`model.rs`, which is not among the sources; only its unit tests are).  The
three closed categories (branch-state, git-operation, main-divergence) are
singleton slots, each rendering as exactly one character when present; the
working-tree slot is a variable-length glyph run; `user_status` is the
optional free-form suffix ( `[]` = absent). -/
structure StatusSymbols where
  branch_state : Option Char
  git_operation : Option Char
  main_divergence : Option Char
  working_tree : List Char
  user_status : List Char
deriving DecidableEq

/-- Modelled from the spec: the dense set of occupied ordinal slots
(`PositionMask` in the missing `model.rs`), in canonical order
branch-state (0b), git-operation (0c), main-divergence (1),
working-tree run (3) — the order the unit tests pin down. -/
structure PositionMask where
  branch_state : Bool
  git_operation : Bool
  main_divergence : Bool
  working_tree : Bool
deriving DecidableEq

/-- Modelled from the spec: `PositionMask::from_symbols` — the slots occupied
by one row's symbols. -/
def PositionMask.from_symbols (s : StatusSymbols) : PositionMask where
  branch_state := s.branch_state.isSome
  git_operation := s.git_operation.isSome
  main_divergence := s.main_divergence.isSome
  working_tree := !s.working_tree.isEmpty

/-- Union of two masks (the dataset mask is the union over all rows). -/
def PositionMask.union (a b : PositionMask) : PositionMask :=
  ⟨a.branch_state || b.branch_state, a.git_operation || b.git_operation,
   a.main_divergence || b.main_divergence, a.working_tree || b.working_tree⟩

/-- Modelled from the spec: `render_with_mask` — one substring per occupied
mask slot in canonical order, the row's symbol(s) if present, a single space
if absent; slots not in the mask contribute nothing.  The working-tree slot
renders at the glyph-run length of the row being rendered. -/
def render_with_mask (s : StatusSymbols) (m : PositionMask) : List Char :=
  (if m.branch_state then [s.branch_state.getD ' '] else [])
    ++ (if m.git_operation then [s.git_operation.getD ' '] else [])
    ++ (if m.main_divergence then [s.main_divergence.getD ' '] else [])
    ++ (if m.working_tree then
          (if s.working_tree.isEmpty then [' '] else s.working_tree)
        else [])

/-- Number of singleton slots present in a mask. -/
def singleton_slot_count (m : PositionMask) : Nat :=
  (if m.branch_state then 1 else 0) + (if m.git_operation then 1 else 0)
    + (if m.main_divergence then 1 else 0)

/-- Modelled from the spec: the full status string of one row — the grid,
padded on the right to the dataset's maximum occupied-grid width and followed
by the row's own suffix when any row of the dataset carries a user-status
suffix, the bare grid otherwise. -/
def render_status (s : StatusSymbols) (m : PositionMask)
    (max_grid_width : Nat) (any_suffix : Bool) : List Char :=
  let grid := render_with_mask s m
  if any_suffix then
    grid ++ List.replicate (max_grid_width - grid.length) ' ' ++ s.user_status
  else grid

/-- Counts a column once when it is visible (width nonzero). -/
def cnt1 (n : Nat) : Nat := if n = 0 then 0 else 1

/-- Sum of all column widths of a layout; hidden columns have width 0, so
this is the sum of the visible column widths. -/
def sumW (w : ColumnWidths) : Nat :=
  w.branch + w.working_diff.total + w.ahead_behind.total + w.branch_diff.total
    + w.states + w.path + w.upstream.total + w.time + w.ci_status + w.commit
    + w.message

/-- Number of visible (nonzero-width) columns of a layout. -/
def cntW (w : ColumnWidths) : Nat :=
  cnt1 w.branch + cnt1 w.working_diff.total + cnt1 w.ahead_behind.total
    + cnt1 w.branch_diff.total + cnt1 w.states + cnt1 w.path
    + cnt1 w.upstream.total + cnt1 w.time + cnt1 w.ci_status + cnt1 w.commit
    + cnt1 w.message

/-- A primary worktree row with a small working-tree diff, a wide path and no
other optional data; used as a concrete dataset in counterexamples. -/
def rowWdPath : Row where
  branchNameWidth := 6
  timeWidth := 3
  commitMessage := ['x']
  isPrimary := true
  ahead := 0
  behind := 0
  workingTreeDiff := some (1, 1)
  branchDiff := (0, 0)
  upstream := none
  statesWidth := none
  prStatus := false
  pathWidth := some 20

/-- A minimal primary worktree row: a short branch name and message, no
optional data at all. -/
def rowMinimal : Row where
  branchNameWidth := 4
  timeWidth := 3
  commitMessage := ['H', 'i']
  isPrimary := true
  ahead := 0
  behind := 0
  workingTreeDiff := none
  branchDiff := (0, 0)
  upstream := none
  statesWidth := none
  prStatus := false
  pathWidth := none

/-- Specification-side measure: the widest branch name over the dataset. -/
def branch_data_width (items : List Row) : Nat :=
  items.foldl (fun m it => max m it.branchNameWidth) 0

/-- Specification-side measure: the widest formatted relative time. -/
def time_data_width (items : List Row) : Nat :=
  items.foldl (fun m it => max m it.timeWidth) 0

/-- Specification-side measure: the longest message, capped at 50 characters. -/
def message_data_width (items : List Row) : Nat :=
  items.foldl (fun m it => max m (it.commitMessage.take 50).length) 0

/-- Specification-side measure: widest ahead digit count over non-primary rows
with a nonzero ahead/behind pair. -/
def ahead_digits (items : List Row) : Nat :=
  items.foldl
    (fun m it =>
      if it.isPrimary = false ∧ (0 < it.ahead ∨ 0 < it.behind) then
        max m (decimalLen it.ahead)
      else m) 0

/-- Specification-side measure: widest behind digit count over non-primary rows
with a nonzero ahead/behind pair. -/
def behind_digits (items : List Row) : Nat :=
  items.foldl
    (fun m it =>
      if it.isPrimary = false ∧ (0 < it.ahead ∨ 0 < it.behind) then
        max m (decimalLen it.behind)
      else m) 0

/-- Specification-side measure: widest added digit count over worktree rows
with a nonzero working-tree diff. -/
def wt_added_digits (items : List Row) : Nat :=
  items.foldl
    (fun m it =>
      match it.workingTreeDiff with
      | some d => if 0 < d.1 ∨ 0 < d.2 then max m (decimalLen d.1) else m
      | none => m) 0

/-- Specification-side measure: widest deleted digit count over worktree rows
with a nonzero working-tree diff. -/
def wt_deleted_digits (items : List Row) : Nat :=
  items.foldl
    (fun m it =>
      match it.workingTreeDiff with
      | some d => if 0 < d.1 ∨ 0 < d.2 then max m (decimalLen d.2) else m
      | none => m) 0

/-- Specification-side measure: widest added digit count over non-primary rows
with a nonzero branch diff. -/
def br_added_digits (items : List Row) : Nat :=
  items.foldl
    (fun m it =>
      if it.isPrimary = false ∧ (0 < it.branchDiff.1 ∨ 0 < it.branchDiff.2) then
        max m (decimalLen it.branchDiff.1)
      else m) 0

/-- Specification-side measure: widest deleted digit count over non-primary rows
with a nonzero branch diff. -/
def br_deleted_digits (items : List Row) : Nat :=
  items.foldl
    (fun m it =>
      if it.isPrimary = false ∧ (0 < it.branchDiff.1 ∨ 0 < it.branchDiff.2) then
        max m (decimalLen it.branchDiff.2)
      else m) 0

/-- Specification-side measure: widest upstream-ahead digit count over rows
with an active upstream. -/
def up_ahead_digits (items : List Row) : Nat :=
  items.foldl
    (fun m it =>
      match it.upstream with
      | some u => max m (decimalLen u.1)
      | none => m) 0

/-- Specification-side measure: widest upstream-behind digit count over rows
with an active upstream. -/
def up_behind_digits (items : List Row) : Nat :=
  items.foldl
    (fun m it =>
      match it.upstream with
      | some u => max m (decimalLen u.2)
      | none => m) 0

/-- Specification-side measure: widest nonempty state string. -/
def states_data_width (items : List Row) : Nat :=
  items.foldl
    (fun m it =>
      match it.statesWidth with
      | some sw => max m sw
      | none => m) 0

/-- Specification-side measure: the working-tree diff column's data width,
`"+" ++ digits ++ " " ++ "-" ++ digits` when any row has data, else 0. -/
def working_diff_data_width (items : List Row) : Nat :=
  if wt_added_digits items != 0 || wt_deleted_digits items != 0 then
    1 + wt_added_digits items + 1 + 1 + wt_deleted_digits items
  else 0

/-- Specification-side measure: the ahead/behind column's data width. -/
def ahead_behind_data_width (items : List Row) : Nat :=
  if ahead_digits items != 0 || behind_digits items != 0 then
    1 + ahead_digits items + 1 + 1 + behind_digits items
  else 0

/-- Specification-side measure: the branch-diff column's data width. -/
def branch_diff_data_width (items : List Row) : Nat :=
  if br_added_digits items != 0 || br_deleted_digits items != 0 then
    1 + br_added_digits items + 1 + 1 + br_deleted_digits items
  else 0

/-- Specification-side measure: the upstream column's data width. -/
def upstream_data_width (items : List Row) : Nat :=
  if up_ahead_digits items != 0 || up_behind_digits items != 0 then
    1 + up_ahead_digits items + 1 + 1 + up_behind_digits items
  else 0

theorem cnt1_cases (n : Nat) : (cnt1 n = 0 ∧ n = 0) ∨ (cnt1 n = 1 ∧ 0 < n) := by
  unfold cnt1; split <;> simp_all <;> omega

theorem cnt1_le_one (n : Nat) : cnt1 n ≤ 1 := by
  unfold cnt1; split <;> omega

theorem try_allocate_first_pay (r i s : Nat) :
    (try_allocate r i s true).1 + (try_allocate r i s true).2 ≤ r := by
  simp only [try_allocate]
  split_ifs <;> simp_all <;> omega

theorem try_allocate_pay (r i s : Nat) :
    (try_allocate r i s false).1 + s * cnt1 (try_allocate r i s false).1
      + (try_allocate r i s false).2 ≤ r := by
  simp only [try_allocate, cnt1]
  split_ifs <;> simp_all <;> omega

theorem try_allocate_shape (r i s : Nat) (b : Bool) :
    (try_allocate r i s b).1 = 0 ∨ (try_allocate r i s b).1 = i := by
  cases b <;> simp only [try_allocate] <;> split_ifs <;> simp

theorem try_allocate_snd_le (r i s : Nat) (b : Bool) :
    (try_allocate r i s b).2 ≤ r := by
  cases b <;> simp only [try_allocate] <;> split_ifs <;> simp <;> omega

theorem try_allocate_pos (r i s : Nat) (b : Bool) :
    0 < (try_allocate r i s b).1 → 0 < r := by
  cases b <;> simp only [try_allocate] <;> split_ifs <;> simp_all <;> omega

theorem try_allocate_exact (r i s : Nat) (b : Bool)
    (h : 0 < (try_allocate r i s b).1) :
    (try_allocate r i s b).2 + (try_allocate r i s b).1
      + (if b then 0 else s) = r := by
  cases b <;> simp only [try_allocate] at h ⊢ <;>
    split_ifs at h ⊢ <;> simp_all <;> omega

theorem alloc_if_pay (c : Bool) (r i s : Nat) :
    (alloc_if c r i s).1 + s * cnt1 (alloc_if c r i s).1
      + (alloc_if c r i s).2 ≤ r := by
  cases c
  · simp [alloc_if, cnt1]
  · exact try_allocate_pay r i s

theorem alloc_if_shape (c : Bool) (r i s : Nat) :
    (alloc_if c r i s).1 = 0 ∨ (alloc_if c r i s).1 = i := by
  cases c
  · simp [alloc_if]
  · exact try_allocate_shape r i s false

theorem alloc_if_snd_le (c : Bool) (r i s : Nat) : (alloc_if c r i s).2 ≤ r := by
  cases c
  · simp [alloc_if]
  · exact try_allocate_snd_le r i s false

theorem alloc_if_pos (c : Bool) (r i s : Nat) :
    0 < (alloc_if c r i s).1 → 0 < r := by
  cases c
  · simp [alloc_if]
  · exact try_allocate_pos r i s false

theorem allocate_message_pay (r i : Nat) :
    (allocate_message r 2 i).1 + 2 * cnt1 (allocate_message r 2 i).1
      + (allocate_message r 2 i).2 ≤ r := by
  simp only [allocate_message, cnt1, MIN_MESSAGE, PREFERRED_MESSAGE]
  split_ifs <;> simp_all <;> omega

theorem allocate_message_le (r i : Nat) : (allocate_message r 2 i).1 ≤ i := by
  simp only [allocate_message, MIN_MESSAGE, PREFERRED_MESSAGE]
  split_ifs <;> simp_all <;> omega

theorem allocate_message_min (r i : Nat) :
    0 < (allocate_message r 2 i).1 → min MIN_MESSAGE i ≤ (allocate_message r 2 i).1 := by
  simp only [allocate_message, MIN_MESSAGE, PREFERRED_MESSAGE]
  split_ifs <;> simp_all <;> omega

theorem ite_shape {α : Sort _} (c : Prop) [Decidable c] (a b : α) :
    (if c then a else b) = b ∨ (if c then a else b) = a := by
  split
  · right; rfl
  · left; rfl

theorem diffIf_total (t : Nat) (d : DiffWidths) (h : t = 0 ∨ t = d.total) :
    (if 0 < t then d else DiffWidths.zero).total = t := by
  rcases h with h | h <;> split <;> simp_all [DiffWidths.zero] <;> omega

theorem ite_total_pay (t : Nat) (d e : DiffWidths) (h : t = 0 ∨ t = d.total) :
    (if 0 < t then d else e).total + 2 * cnt1 ((if 0 < t then d else e).total)
      ≤ e.total + 2 * cnt1 e.total + t + 2 * cnt1 t := by
  by_cases hp : 0 < t
  · rw [if_pos hp]
    rcases h with h | h
    · omega
    · rw [← h]; omega
  · rw [if_neg hp]
    have ht : cnt1 t = 0 := by unfold cnt1; split <;> omega
    omega

theorem ite_nat_pay (c : Prop) [Decidable c] (a b : Nat) :
    (if c then a else b) + 2 * cnt1 (if c then a else b)
      ≤ a + 2 * cnt1 a + b + 2 * cnt1 b := by
  split <;> omega

theorem ite_total_vis (t : Nat) (d e : DiffWidths) :
    (if 0 < t then d else e).total ≠ 0 → e.total ≠ 0 ∨ 0 < t := by
  split <;> intro h
  · right; assumption
  · left; assumption

theorem phase1_spec (ideal : ColumnWidths) (flags : ColumnDataFlags)
    (show_full : Bool) (mpw cw tw : Nat) :
    ∀ P : ColumnWidths × Nat,
      phase1AndMessage ideal flags show_full mpw cw tw = P →
      sumW P.1 + 2 * cntW P.1 + P.2 ≤ tw + 2
      ∧ (P.1.branch = 0 ∨ P.1.branch = ideal.branch)
      ∧ (P.1.working_diff = DiffWidths.zero ∨ P.1.working_diff = ideal.working_diff)
      ∧ (P.1.ahead_behind = DiffWidths.zero ∨ P.1.ahead_behind = ideal.ahead_behind)
      ∧ (P.1.branch_diff = DiffWidths.zero ∨ P.1.branch_diff = ideal.branch_diff)
      ∧ (P.1.states = 0 ∨ P.1.states = ideal.states)
      ∧ (P.1.path = 0 ∨ P.1.path = mpw)
      ∧ (P.1.upstream = DiffWidths.zero ∨ P.1.upstream = ideal.upstream)
      ∧ (P.1.time = 0 ∨ P.1.time = ideal.time)
      ∧ (P.1.ci_status = 0 ∨ P.1.ci_status = ideal.ci_status)
      ∧ (P.1.commit = 0 ∨ P.1.commit = cw)
      ∧ P.1.message ≤ ideal.message
      ∧ (0 < P.1.message → min MIN_MESSAGE ideal.message ≤ P.1.message)
      ∧ (flags.working_diff = false → P.1.working_diff = DiffWidths.zero)
      ∧ (flags.ahead_behind = false → P.1.ahead_behind = DiffWidths.zero)
      ∧ (flags.branch_diff = false → P.1.branch_diff = DiffWidths.zero)
      ∧ (flags.states = false → P.1.states = 0)
      ∧ (flags.upstream = false → P.1.upstream = DiffWidths.zero)
      ∧ (flags.ci_status = false → P.1.ci_status = 0) := by
  intro P hP
  subst hP
  simp only [phase1AndMessage]
  set a1 := try_allocate tw ideal.branch 2 true with h1
  set a2 := alloc_if flags.working_diff a1.2 ideal.working_diff.total 2 with h2
  set a3 := alloc_if flags.ahead_behind a2.2 ideal.ahead_behind.total 2 with h3
  set a4 := alloc_if (show_full && flags.branch_diff) a3.2 ideal.branch_diff.total 2 with h4
  set a5 := alloc_if flags.states a4.2 ideal.states 2 with h5
  set a6 := try_allocate a5.2 mpw 2 false with h6
  set a7 := alloc_if flags.upstream a6.2 ideal.upstream.total 2 with h7
  set a8 := try_allocate a7.2 ideal.time 2 false with h8
  set a9 := alloc_if flags.ci_status a8.2 ideal.ci_status 2 with h9
  set a10 := try_allocate a9.2 cw 2 false with h10
  set a11 := allocate_message a10.2 2 ideal.message with h11
  have shape2 : a2.1 = 0 ∨ a2.1 = ideal.working_diff.total := by
    rw [h2]; exact alloc_if_shape _ _ _ _
  have shape3 : a3.1 = 0 ∨ a3.1 = ideal.ahead_behind.total := by
    rw [h3]; exact alloc_if_shape _ _ _ _
  have shape4 : a4.1 = 0 ∨ a4.1 = ideal.branch_diff.total := by
    rw [h4]; exact alloc_if_shape _ _ _ _
  have shape7 : a7.1 = 0 ∨ a7.1 = ideal.upstream.total := by
    rw [h7]; exact alloc_if_shape _ _ _ _
  have pay1 : a1.1 + a1.2 ≤ tw := by
    rw [h1]; exact try_allocate_first_pay _ _ _
  have pay2 : a2.1 + 2 * cnt1 a2.1 + a2.2 ≤ a1.2 := by
    rw [h2]; exact alloc_if_pay _ _ _ _
  have pay3 : a3.1 + 2 * cnt1 a3.1 + a3.2 ≤ a2.2 := by
    rw [h3]; exact alloc_if_pay _ _ _ _
  have pay4 : a4.1 + 2 * cnt1 a4.1 + a4.2 ≤ a3.2 := by
    rw [h4]; exact alloc_if_pay _ _ _ _
  have pay5 : a5.1 + 2 * cnt1 a5.1 + a5.2 ≤ a4.2 := by
    rw [h5]; exact alloc_if_pay _ _ _ _
  have pay6 : a6.1 + 2 * cnt1 a6.1 + a6.2 ≤ a5.2 := by
    rw [h6]; exact try_allocate_pay _ _ _
  have pay7 : a7.1 + 2 * cnt1 a7.1 + a7.2 ≤ a6.2 := by
    rw [h7]; exact alloc_if_pay _ _ _ _
  have pay8 : a8.1 + 2 * cnt1 a8.1 + a8.2 ≤ a7.2 := by
    rw [h8]; exact try_allocate_pay _ _ _
  have pay9 : a9.1 + 2 * cnt1 a9.1 + a9.2 ≤ a8.2 := by
    rw [h9]; exact alloc_if_pay _ _ _ _
  have pay10 : a10.1 + 2 * cnt1 a10.1 + a10.2 ≤ a9.2 := by
    rw [h10]; exact try_allocate_pay _ _ _
  have pay11 : a11.1 + 2 * cnt1 a11.1 + a11.2 ≤ a10.2 := by
    rw [h11]; exact allocate_message_pay _ _
  refine ⟨?_, ?_, ?_, ?_, ?_, ?_, ?_, ?_, ?_, ?_, ?_, ?_, ?_, ?_, ?_, ?_, ?_, ?_, ?_⟩
  · simp only [sumW, cntW]
    rw [diffIf_total a2.1 ideal.working_diff shape2,
      diffIf_total a3.1 ideal.ahead_behind shape3,
      diffIf_total a4.1 ideal.branch_diff shape4,
      diffIf_total a7.1 ideal.upstream shape7]
    have c1 := cnt1_le_one a1.1
    omega
  · rw [h1]; exact try_allocate_shape _ _ _ _
  · exact ite_shape _ _ _
  · exact ite_shape _ _ _
  · exact ite_shape _ _ _
  · rw [h5]; exact alloc_if_shape _ _ _ _
  · rw [h6]; exact try_allocate_shape _ _ _ _
  · exact ite_shape _ _ _
  · rw [h8]; exact try_allocate_shape _ _ _ _
  · rw [h9]; exact alloc_if_shape _ _ _ _
  · rw [h10]; exact try_allocate_shape _ _ _ _
  · rw [h11]; exact allocate_message_le _ _
  · rw [h11]; exact allocate_message_min _ _
  · intro hf
    have hz : a2.1 = 0 := by rw [h2, hf]; rfl
    simp [hz]
  · intro hf
    have hz : a3.1 = 0 := by rw [h3, hf]; rfl
    simp [hz]
  · intro hf
    have hz : a4.1 = 0 := by rw [h4, hf]; simp [alloc_if]
    simp [hz]
  · intro hf
    have hz : a5.1 = 0 := by rw [h5, hf]; rfl
    exact hz
  · intro hf
    have hz : a7.1 = 0 := by rw [h7, hf]; rfl
    simp [hz]
  · intro hf
    have hz : a9.1 = 0 := by rw [h9, hf]; rfl
    exact hz

theorem phase2_spec (ideal : ColumnWidths) (flags : ColumnDataFlags)
    (show_full fetch_ci : Bool) (w : ColumnWidths) (r : Nat) :
    ∀ Q : ColumnWidths × Nat, phase2 ideal flags show_full fetch_ci w r = Q →
      sumW Q.1 + 2 * cntW Q.1 + Q.2 ≤ sumW w + 2 * cntW w + r
      ∧ Q.1.branch = w.branch
      ∧ Q.1.path = w.path
      ∧ Q.1.time = w.time
      ∧ Q.1.commit = w.commit
      ∧ Q.1.message = w.message
      ∧ (Q.1.working_diff = w.working_diff ∨ Q.1.working_diff = ideal.working_diff)
      ∧ (Q.1.ahead_behind = w.ahead_behind ∨ Q.1.ahead_behind = ideal.ahead_behind)
      ∧ (Q.1.branch_diff = w.branch_diff ∨ Q.1.branch_diff = ideal.branch_diff)
      ∧ (Q.1.states = w.states ∨ Q.1.states = 0 ∨ Q.1.states = ideal.states)
      ∧ (Q.1.upstream = w.upstream ∨ Q.1.upstream = ideal.upstream)
      ∧ (Q.1.ci_status = w.ci_status ∨ Q.1.ci_status = 0
          ∨ Q.1.ci_status = ideal.ci_status)
      ∧ (Q.1.working_diff.total ≠ 0 → w.working_diff.total ≠ 0 ∨ 0 < r)
      ∧ (Q.1.ahead_behind.total ≠ 0 → w.ahead_behind.total ≠ 0 ∨ 0 < r)
      ∧ (Q.1.branch_diff.total ≠ 0 → w.branch_diff.total ≠ 0 ∨ 0 < r)
      ∧ (Q.1.states ≠ 0 → w.states ≠ 0 ∨ 0 < r)
      ∧ (Q.1.upstream.total ≠ 0 → w.upstream.total ≠ 0 ∨ 0 < r)
      ∧ (Q.1.ci_status ≠ 0 → w.ci_status ≠ 0 ∨ 0 < r) := by
  intro Q hQ
  subst hQ
  simp only [phase2]
  set b1 := alloc_if (!flags.working_diff) r ideal.working_diff.total 2 with h1
  set b2 := alloc_if (!flags.ahead_behind) b1.2 ideal.ahead_behind.total 2 with h2
  set b3 := alloc_if (show_full && !flags.branch_diff) b2.2 ideal.branch_diff.total 2 with h3
  set b4 := alloc_if (!flags.states) b3.2 ideal.states 2 with h4
  set b5 := alloc_if (!flags.upstream) b4.2 ideal.upstream.total 2 with h5
  set b6 := alloc_if (fetch_ci && !flags.ci_status) b5.2 ideal.ci_status 2 with h6
  have shape1 : b1.1 = 0 ∨ b1.1 = ideal.working_diff.total := by
    rw [h1]; exact alloc_if_shape _ _ _ _
  have shape2 : b2.1 = 0 ∨ b2.1 = ideal.ahead_behind.total := by
    rw [h2]; exact alloc_if_shape _ _ _ _
  have shape3 : b3.1 = 0 ∨ b3.1 = ideal.branch_diff.total := by
    rw [h3]; exact alloc_if_shape _ _ _ _
  have shape4 : b4.1 = 0 ∨ b4.1 = ideal.states := by
    rw [h4]; exact alloc_if_shape _ _ _ _
  have shape5 : b5.1 = 0 ∨ b5.1 = ideal.upstream.total := by
    rw [h5]; exact alloc_if_shape _ _ _ _
  have shape6 : b6.1 = 0 ∨ b6.1 = ideal.ci_status := by
    rw [h6]; exact alloc_if_shape _ _ _ _
  have pay1 : b1.1 + 2 * cnt1 b1.1 + b1.2 ≤ r := by
    rw [h1]; exact alloc_if_pay _ _ _ _
  have pay2 : b2.1 + 2 * cnt1 b2.1 + b2.2 ≤ b1.2 := by
    rw [h2]; exact alloc_if_pay _ _ _ _
  have pay3 : b3.1 + 2 * cnt1 b3.1 + b3.2 ≤ b2.2 := by
    rw [h3]; exact alloc_if_pay _ _ _ _
  have pay4 : b4.1 + 2 * cnt1 b4.1 + b4.2 ≤ b3.2 := by
    rw [h4]; exact alloc_if_pay _ _ _ _
  have pay5 : b5.1 + 2 * cnt1 b5.1 + b5.2 ≤ b4.2 := by
    rw [h5]; exact alloc_if_pay _ _ _ _
  have pay6 : b6.1 + 2 * cnt1 b6.1 + b6.2 ≤ b5.2 := by
    rw [h6]; exact alloc_if_pay _ _ _ _
  have pos1 : 0 < b1.1 → 0 < r := by rw [h1]; exact alloc_if_pos _ _ _ _
  have pos2 : 0 < b2.1 → 0 < b1.2 := by rw [h2]; exact alloc_if_pos _ _ _ _
  have pos3 : 0 < b3.1 → 0 < b2.2 := by rw [h3]; exact alloc_if_pos _ _ _ _
  have pos4 : 0 < b4.1 → 0 < b3.2 := by rw [h4]; exact alloc_if_pos _ _ _ _
  have pos5 : 0 < b5.1 → 0 < b4.2 := by rw [h5]; exact alloc_if_pos _ _ _ _
  have pos6 : 0 < b6.1 → 0 < b5.2 := by rw [h6]; exact alloc_if_pos _ _ _ _
  refine ⟨?_, by trivial, by trivial, by trivial, by trivial, by trivial,
    ?_, ?_, ?_, ?_, ?_, ?_, ?_, ?_, ?_, ?_, ?_, ?_⟩
  · simp only [sumW, cntW]
    have f1 := ite_total_pay b1.1 ideal.working_diff w.working_diff shape1
    have f2 := ite_total_pay b2.1 ideal.ahead_behind w.ahead_behind shape2
    have f3 := ite_total_pay b3.1 ideal.branch_diff w.branch_diff shape3
    have f4 := ite_nat_pay (flags.states = true) w.states b4.1
    have f5 := ite_total_pay b5.1 ideal.upstream w.upstream shape5
    have f6 := ite_nat_pay ((fetch_ci && !flags.ci_status) = true) b6.1 w.ci_status
    omega
  · exact ite_shape _ _ _
  · exact ite_shape _ _ _
  · exact ite_shape _ _ _
  · rcases ite_shape (flags.states = true) w.states b4.1 with h | h
    · rw [h]
      rcases shape4 with h4s | h4s
      · right; left; exact h4s
      · right; right; exact h4s
    · left; exact h
  · exact ite_shape _ _ _
  · rcases ite_shape ((fetch_ci && !flags.ci_status) = true) b6.1 w.ci_status with h | h
    · left; exact h
    · rw [h]
      rcases shape6 with h6s | h6s
      · right; left; exact h6s
      · right; right; exact h6s
  · intro hne
    rcases ite_total_vis b1.1 ideal.working_diff w.working_diff hne with h | h
    · left; exact h
    · right; exact pos1 h
  · intro hne
    rcases ite_total_vis b2.1 ideal.ahead_behind w.ahead_behind hne with h | h
    · left; exact h
    · right; have := pos2 h; omega
  · intro hne
    rcases ite_total_vis b3.1 ideal.branch_diff w.branch_diff hne with h | h
    · left; exact h
    · right; have := pos3 h; omega
  · intro hne
    rcases ite_shape (flags.states = true) w.states b4.1 with h | h
    · rw [h] at hne
      right
      have hb : 0 < b4.1 := by omega
      have := pos4 hb; omega
    · rw [h] at hne; left; exact hne
  · intro hne
    rcases ite_total_vis b5.1 ideal.upstream w.upstream hne with h | h
    · left; exact h
    · right; have := pos5 h; omega
  · intro hne
    rcases ite_shape ((fetch_ci && !flags.ci_status) = true) b6.1 w.ci_status with h | h
    · rw [h] at hne; left; exact hne
    · rw [h] at hne
      right
      have hb : 0 < b6.1 := by omega
      have := pos6 hb; omega

theorem expand_spec (w : ColumnWidths) (r : Nat) :
    sumW (expandMessage w r) ≤ sumW w + r
    ∧ cntW (expandMessage w r) = cntW w
    ∧ (expandMessage w r).branch = w.branch
    ∧ (expandMessage w r).working_diff = w.working_diff
    ∧ (expandMessage w r).ahead_behind = w.ahead_behind
    ∧ (expandMessage w r).branch_diff = w.branch_diff
    ∧ (expandMessage w r).states = w.states
    ∧ (expandMessage w r).path = w.path
    ∧ (expandMessage w r).upstream = w.upstream
    ∧ (expandMessage w r).time = w.time
    ∧ (expandMessage w r).ci_status = w.ci_status
    ∧ (expandMessage w r).commit = w.commit
    ∧ w.message ≤ (expandMessage w r).message
    ∧ (w.message = 0 → (expandMessage w r).message = 0) := by
  simp only [expandMessage]
  split
  · next h =>
    have hmin : min r (MAX_MESSAGE - w.message) ≤ r := Nat.min_le_left _ _
    have hc1 := cnt1_cases w.message
    have hc2 := cnt1_cases (w.message + min r (MAX_MESSAGE - w.message))
    refine ⟨?_, ?_, by trivial, by trivial, by trivial, by trivial, by trivial,
      by trivial, by trivial, by trivial, by trivial, by trivial, ?_, ?_⟩
    · simp only [sumW]; omega
    · simp only [cntW]; omega
    · simp only []; omega
    · intro hz; omega
  · refine ⟨by omega, rfl, rfl, rfl, rfl, rfl, rfl, rfl, rfl, rfl, rfl, rfl,
      Nat.le_refl _, fun h => h⟩

theorem sumW_eq_zero_of_cntW (w : ColumnWidths) (h : cntW w = 0) : sumW w = 0 := by
  have c1 := cnt1_cases w.branch
  have c2 := cnt1_cases w.working_diff.total
  have c3 := cnt1_cases w.ahead_behind.total
  have c4 := cnt1_cases w.branch_diff.total
  have c5 := cnt1_cases w.states
  have c6 := cnt1_cases w.path
  have c7 := cnt1_cases w.upstream.total
  have c8 := cnt1_cases w.time
  have c9 := cnt1_cases w.ci_status
  have c10 := cnt1_cases w.commit
  have c11 := cnt1_cases w.message
  simp only [cntW] at h
  simp only [sumW]
  omega

theorem cntW_pos_of_sumW (w : ColumnWidths) (h : 0 < sumW w) : 0 < cntW w := by
  rcases Nat.eq_zero_or_pos (cntW w) with hz | hp
  · have := sumW_eq_zero_of_cntW w hz; omega
  · exact hp

theorem ideal_widths_ge_header (items : List Row) (fc : Bool) :
    HEADER_BRANCH.length ≤ (calculate_column_widths items fc).1.branch
    ∧ HEADER_AGE.length ≤ (calculate_column_widths items fc).1.time
    ∧ HEADER_CI.length ≤ (calculate_column_widths items fc).1.ci_status
    ∧ HEADER_MESSAGE.length ≤ (calculate_column_widths items fc).1.message
    ∧ HEADER_AHEAD_BEHIND.length ≤ (calculate_column_widths items fc).1.ahead_behind.total
    ∧ HEADER_WORKING_DIFF.length ≤ (calculate_column_widths items fc).1.working_diff.total
    ∧ HEADER_BRANCH_DIFF.length ≤ (calculate_column_widths items fc).1.branch_diff.total
    ∧ HEADER_UPSTREAM.length ≤ (calculate_column_widths items fc).1.upstream.total
    ∧ HEADER_STATE.length ≤ (calculate_column_widths items fc).1.states
    ∧ HEADER_COMMIT.length ≤ (calculate_column_widths items fc).1.commit := by
  simp only [calculate_column_widths, fit_header]
  refine ⟨Nat.le_max_right _ _, Nat.le_max_right _ _, Nat.le_max_right _ _,
    Nat.le_max_right _ _, Nat.le_max_right _ _, Nat.le_max_right _ _,
    Nat.le_max_right _ _, Nat.le_max_right _ _, Nat.le_max_right _ _, by decide⟩

theorem layout_spec (items : List Row) (sf fc : Bool) (tw : Nat) :
    ∀ W : ColumnWidths, (calculate_responsive_layout items sf fc tw).widths = W →
      sumW W + 2 * cntW W ≤ tw + 2
      ∧ (W.branch = 0 ∨ W.branch = (calculate_column_widths items fc).1.branch)
      ∧ (W.working_diff = DiffWidths.zero
          ∨ W.working_diff = (calculate_column_widths items fc).1.working_diff)
      ∧ (W.ahead_behind = DiffWidths.zero
          ∨ W.ahead_behind = (calculate_column_widths items fc).1.ahead_behind)
      ∧ (W.branch_diff = DiffWidths.zero
          ∨ W.branch_diff = (calculate_column_widths items fc).1.branch_diff)
      ∧ (W.states = 0 ∨ W.states = (calculate_column_widths items fc).1.states)
      ∧ (W.path = 0 ∨ W.path = fit_header HEADER_PATH (path_data_width items))
      ∧ (W.upstream = DiffWidths.zero
          ∨ W.upstream = (calculate_column_widths items fc).1.upstream)
      ∧ (W.time = 0 ∨ W.time = (calculate_column_widths items fc).1.time)
      ∧ (W.ci_status = 0 ∨ W.ci_status = (calculate_column_widths items fc).1.ci_status)
      ∧ (W.commit = 0 ∨ W.commit = fit_header HEADER_COMMIT COMMIT_HASH_WIDTH)
      ∧ (0 < W.message →
          min MIN_MESSAGE (calculate_column_widths items fc).1.message ≤ W.message)
      ∧ ((calculate_column_widths items fc).2.working_diff = false →
          W.working_diff.total ≠ 0 → 0 < remaining_after_message items sf fc tw)
      ∧ ((calculate_column_widths items fc).2.ahead_behind = false →
          W.ahead_behind.total ≠ 0 → 0 < remaining_after_message items sf fc tw)
      ∧ ((calculate_column_widths items fc).2.branch_diff = false →
          W.branch_diff.total ≠ 0 → 0 < remaining_after_message items sf fc tw)
      ∧ ((calculate_column_widths items fc).2.states = false →
          W.states ≠ 0 → 0 < remaining_after_message items sf fc tw)
      ∧ ((calculate_column_widths items fc).2.upstream = false →
          W.upstream.total ≠ 0 → 0 < remaining_after_message items sf fc tw)
      ∧ ((calculate_column_widths items fc).2.ci_status = false →
          W.ci_status ≠ 0 → 0 < remaining_after_message items sf fc tw) := by
  intro W hW
  subst hW
  simp only [calculate_responsive_layout]
  set IW := calculate_column_widths items fc with hIW
  set mpw := fit_header HEADER_PATH (path_data_width items) with hmpw
  set cwdt := fit_header HEADER_COMMIT COMMIT_HASH_WIDTH with hcw
  set P := phase1AndMessage IW.1 IW.2 sf mpw cwdt tw with hP
  set Q := phase2 IW.1 IW.2 sf fc P.1 P.2 with hQ
  have hrem : remaining_after_message items sf fc tw = P.2 := by
    rw [hP]; simp only [remaining_after_message]
  obtain ⟨g1, s1b, s1wd, s1ab, s1bd, s1st, s1p, s1up, s1t, s1ci, s1c, s1m1, s1m2,
    f1wd, f1ab, f1bd, f1st, f1up, f1ci⟩ :=
    phase1_spec IW.1 IW.2 sf mpw cwdt tw P hP.symm
  obtain ⟨g2, e2b, e2p, e2t, e2c, e2m, s2wd, s2ab, s2bd, s2st, s2up, s2ci,
    v2wd, v2ab, v2bd, v2st, v2up, v2ci⟩ :=
    phase2_spec IW.1 IW.2 sf fc P.1 P.2 Q hQ.symm
  obtain ⟨xsum, xcnt, xb, xwd, xab, xbd, xst, xp, xup, xt, xci, xc, xm, xm0⟩ :=
    expand_spec Q.1 Q.2
  refine ⟨?_, ?_, ?_, ?_, ?_, ?_, ?_, ?_, ?_, ?_, ?_, ?_, ?_, ?_, ?_, ?_, ?_, ?_⟩
  · omega
  · rw [xb, e2b]; exact s1b
  · rw [xwd]
    rcases s2wd with h | h
    · rw [h]; exact s1wd
    · right; exact h
  · rw [xab]
    rcases s2ab with h | h
    · rw [h]; exact s1ab
    · right; exact h
  · rw [xbd]
    rcases s2bd with h | h
    · rw [h]; exact s1bd
    · right; exact h
  · rw [xst]
    rcases s2st with h | h | h
    · rw [h]; exact s1st
    · left; exact h
    · right; exact h
  · rw [xp, e2p]; exact s1p
  · rw [xup]
    rcases s2up with h | h
    · rw [h]; exact s1up
    · right; exact h
  · rw [xt, e2t]; exact s1t
  · rw [xci]
    rcases s2ci with h | h | h
    · rw [h]; exact s1ci
    · left; exact h
    · right; exact h
  · rw [xc, e2c]; exact s1c
  · intro hpos
    have hq : 0 < Q.1.message := by
      rcases Nat.eq_zero_or_pos Q.1.message with hz | hp2
      · have := xm0 hz
        omega
      · exact hp2
    rw [e2m] at hq
    have := s1m2 hq
    rw [e2m] at xm
    omega
  · intro hflag hne
    rw [xwd] at hne
    rcases v2wd hne with h | h
    · exact absurd (by rw [f1wd hflag]; rfl) h
    · omega
  · intro hflag hne
    rw [xab] at hne
    rcases v2ab hne with h | h
    · exact absurd (by rw [f1ab hflag]; rfl) h
    · omega
  · intro hflag hne
    rw [xbd] at hne
    rcases v2bd hne with h | h
    · exact absurd (by rw [f1bd hflag]; rfl) h
    · omega
  · intro hflag hne
    rw [xst] at hne
    rcases v2st hne with h | h
    · exact absurd (f1st hflag) h
    · omega
  · intro hflag hne
    rw [xup] at hne
    rcases v2up hne with h | h
    · exact absurd (by rw [f1up hflag]; rfl) h
    · omega
  · intro hflag hne
    rw [xci] at hne
    rcases v2ci hne with h | h
    · exact absurd (f1ci hflag) h
    · omega

theorem advance_fst (pos w : Nat) :
    (advance pos w).1 = if w = 0 then 0 else if pos = 0 then 0 else pos + 2 := by
  simp only [advance]; split <;> rfl

theorem advance_snd (pos w : Nat) :
    (advance pos w).2
      = if w = 0 then pos else (if pos = 0 then 0 else pos + 2) + w := by
  simp only [advance]; split <;> rfl

theorem advance_spec (pos S c w : Nat)
    (h : (c = 0 ∧ pos = 0 ∧ S = 0) ∨ (0 < c ∧ 0 < S ∧ pos + 2 = S + 2 * c)) :
    ((advance pos w).1 = if w = 0 then 0 else S + 2 * c)
    ∧ ((c + cnt1 w = 0 ∧ (advance pos w).2 = 0 ∧ S + w = 0)
        ∨ (0 < c + cnt1 w ∧ 0 < S + w
            ∧ (advance pos w).2 + 2 = S + w + 2 * (c + cnt1 w))) := by
  have hcw := cnt1_cases w
  rw [advance_fst, advance_snd]
  by_cases hw : w = 0
  · simp only [if_pos hw]
    rcases h with ⟨hc, hpos, hS⟩ | ⟨hc, hS, hpos⟩
    · exact ⟨by trivial, Or.inl ⟨by omega, by omega, by omega⟩⟩
    · exact ⟨by trivial, Or.inr ⟨by omega, by omega, by omega⟩⟩
  · simp only [if_neg hw]
    rcases h with ⟨hc, hpos, hS⟩ | ⟨hc, hS, hpos⟩
    · simp only [if_pos hpos]
      exact ⟨by omega, Or.inr ⟨by omega, by omega, by omega⟩⟩
    · have hpos0 : ¬pos = 0 := by omega
      simp only [if_neg hpos0]
      exact ⟨by omega, Or.inr ⟨by omega, by omega, by omega⟩⟩

theorem positions_spec (w : ColumnWidths) :
    (computePositions w).branch = 0
    ∧ ((computePositions w).working_diff
        = if w.working_diff.total = 0 then 0 else w.branch + 2 * cnt1 w.branch)
    ∧ ((computePositions w).ahead_behind
        = if w.ahead_behind.total = 0 then 0
          else w.branch + w.working_diff.total
            + 2 * (cnt1 w.branch + cnt1 w.working_diff.total))
    ∧ ((computePositions w).branch_diff
        = if w.branch_diff.total = 0 then 0
          else w.branch + w.working_diff.total + w.ahead_behind.total
            + 2 * (cnt1 w.branch + cnt1 w.working_diff.total
              + cnt1 w.ahead_behind.total))
    ∧ ((computePositions w).states
        = if w.states = 0 then 0
          else w.branch + w.working_diff.total + w.ahead_behind.total
              + w.branch_diff.total
            + 2 * (cnt1 w.branch + cnt1 w.working_diff.total
              + cnt1 w.ahead_behind.total + cnt1 w.branch_diff.total))
    ∧ ((computePositions w).path
        = if w.path = 0 then 0
          else w.branch + w.working_diff.total + w.ahead_behind.total
              + w.branch_diff.total + w.states
            + 2 * (cnt1 w.branch + cnt1 w.working_diff.total
              + cnt1 w.ahead_behind.total + cnt1 w.branch_diff.total
              + cnt1 w.states))
    ∧ ((computePositions w).upstream
        = if w.upstream.total = 0 then 0
          else w.branch + w.working_diff.total + w.ahead_behind.total
              + w.branch_diff.total + w.states + w.path
            + 2 * (cnt1 w.branch + cnt1 w.working_diff.total
              + cnt1 w.ahead_behind.total + cnt1 w.branch_diff.total
              + cnt1 w.states + cnt1 w.path))
    ∧ ((computePositions w).time
        = if w.time = 0 then 0
          else w.branch + w.working_diff.total + w.ahead_behind.total
              + w.branch_diff.total + w.states + w.path + w.upstream.total
            + 2 * (cnt1 w.branch + cnt1 w.working_diff.total
              + cnt1 w.ahead_behind.total + cnt1 w.branch_diff.total
              + cnt1 w.states + cnt1 w.path + cnt1 w.upstream.total))
    ∧ ((computePositions w).ci_status
        = if w.ci_status = 0 then 0
          else w.branch + w.working_diff.total + w.ahead_behind.total
              + w.branch_diff.total + w.states + w.path + w.upstream.total
              + w.time
            + 2 * (cnt1 w.branch + cnt1 w.working_diff.total
              + cnt1 w.ahead_behind.total + cnt1 w.branch_diff.total
              + cnt1 w.states + cnt1 w.path + cnt1 w.upstream.total
              + cnt1 w.time))
    ∧ ((computePositions w).commit
        = if w.commit = 0 then 0
          else w.branch + w.working_diff.total + w.ahead_behind.total
              + w.branch_diff.total + w.states + w.path + w.upstream.total
              + w.time + w.ci_status
            + 2 * (cnt1 w.branch + cnt1 w.working_diff.total
              + cnt1 w.ahead_behind.total + cnt1 w.branch_diff.total
              + cnt1 w.states + cnt1 w.path + cnt1 w.upstream.total
              + cnt1 w.time + cnt1 w.ci_status))
    ∧ ((computePositions w).message
        = if w.message = 0 then 0
          else w.branch + w.working_diff.total + w.ahead_behind.total
              + w.branch_diff.total + w.states + w.path + w.upstream.total
              + w.time + w.ci_status + w.commit
            + 2 * (cnt1 w.branch + cnt1 w.working_diff.total
              + cnt1 w.ahead_behind.total + cnt1 w.branch_diff.total
              + cnt1 w.states + cnt1 w.path + cnt1 w.upstream.total
              + cnt1 w.time + cnt1 w.ci_status + cnt1 w.commit)) := by
  have h1 := advance_spec 0 0 0 w.branch (Or.inl ⟨rfl, rfl, rfl⟩)
  simp only [Nat.zero_add, Nat.add_zero, Nat.mul_zero, ite_self] at h1
  have h2 := advance_spec _ w.branch (cnt1 w.branch) w.working_diff.total h1.2
  have h3 := advance_spec _ (w.branch + w.working_diff.total)
    (cnt1 w.branch + cnt1 w.working_diff.total) w.ahead_behind.total h2.2
  have h4 := advance_spec _
    (w.branch + w.working_diff.total + w.ahead_behind.total)
    (cnt1 w.branch + cnt1 w.working_diff.total + cnt1 w.ahead_behind.total)
    w.branch_diff.total h3.2
  have h5 := advance_spec _
    (w.branch + w.working_diff.total + w.ahead_behind.total + w.branch_diff.total)
    (cnt1 w.branch + cnt1 w.working_diff.total + cnt1 w.ahead_behind.total
      + cnt1 w.branch_diff.total)
    w.states h4.2
  have h6 := advance_spec _
    (w.branch + w.working_diff.total + w.ahead_behind.total + w.branch_diff.total
      + w.states)
    (cnt1 w.branch + cnt1 w.working_diff.total + cnt1 w.ahead_behind.total
      + cnt1 w.branch_diff.total + cnt1 w.states)
    w.path h5.2
  have h7 := advance_spec _
    (w.branch + w.working_diff.total + w.ahead_behind.total + w.branch_diff.total
      + w.states + w.path)
    (cnt1 w.branch + cnt1 w.working_diff.total + cnt1 w.ahead_behind.total
      + cnt1 w.branch_diff.total + cnt1 w.states + cnt1 w.path)
    w.upstream.total h6.2
  have h8 := advance_spec _
    (w.branch + w.working_diff.total + w.ahead_behind.total + w.branch_diff.total
      + w.states + w.path + w.upstream.total)
    (cnt1 w.branch + cnt1 w.working_diff.total + cnt1 w.ahead_behind.total
      + cnt1 w.branch_diff.total + cnt1 w.states + cnt1 w.path
      + cnt1 w.upstream.total)
    w.time h7.2
  have h9 := advance_spec _
    (w.branch + w.working_diff.total + w.ahead_behind.total + w.branch_diff.total
      + w.states + w.path + w.upstream.total + w.time)
    (cnt1 w.branch + cnt1 w.working_diff.total + cnt1 w.ahead_behind.total
      + cnt1 w.branch_diff.total + cnt1 w.states + cnt1 w.path
      + cnt1 w.upstream.total + cnt1 w.time)
    w.ci_status h8.2
  have h10 := advance_spec _
    (w.branch + w.working_diff.total + w.ahead_behind.total + w.branch_diff.total
      + w.states + w.path + w.upstream.total + w.time + w.ci_status)
    (cnt1 w.branch + cnt1 w.working_diff.total + cnt1 w.ahead_behind.total
      + cnt1 w.branch_diff.total + cnt1 w.states + cnt1 w.path
      + cnt1 w.upstream.total + cnt1 w.time + cnt1 w.ci_status)
    w.commit h9.2
  have h11 := advance_spec _
    (w.branch + w.working_diff.total + w.ahead_behind.total + w.branch_diff.total
      + w.states + w.path + w.upstream.total + w.time + w.ci_status + w.commit)
    (cnt1 w.branch + cnt1 w.working_diff.total + cnt1 w.ahead_behind.total
      + cnt1 w.branch_diff.total + cnt1 w.states + cnt1 w.path
      + cnt1 w.upstream.total + cnt1 w.time + cnt1 w.ci_status + cnt1 w.commit)
    w.message h10.2
  simp only [computePositions]
  exact ⟨h1.1, h2.1, h3.1, h4.1, h5.1, h6.1, h7.1, h8.1, h9.1, h10.1, h11.1⟩

theorem foldl_max_branch (items : List Row) (acc : WidthMaxes) :
    (items.foldl width_maxes_step acc).max_branch
      = items.foldl (fun m it => max m it.branchNameWidth) acc.max_branch := by
  induction items generalizing acc with
  | nil => rfl
  | cons it rest ih => simp only [List.foldl_cons, ih]; rfl

theorem foldl_max_time (items : List Row) (acc : WidthMaxes) :
    (items.foldl width_maxes_step acc).max_time
      = items.foldl (fun m it => max m it.timeWidth) acc.max_time := by
  induction items generalizing acc with
  | nil => rfl
  | cons it rest ih => simp only [List.foldl_cons, ih]; rfl

theorem foldl_max_message (items : List Row) (acc : WidthMaxes) :
    (items.foldl width_maxes_step acc).max_message
      = items.foldl (fun m it => max m (it.commitMessage.take 50).length)
          acc.max_message := by
  induction items generalizing acc with
  | nil => rfl
  | cons it rest ih => simp only [List.foldl_cons, ih]; rfl

theorem foldl_max_ahead (items : List Row) (acc : WidthMaxes) :
    (items.foldl width_maxes_step acc).max_ahead_digits
      = items.foldl
          (fun m it =>
            if it.isPrimary = false ∧ (0 < it.ahead ∨ 0 < it.behind) then
              max m (decimalLen it.ahead)
            else m) acc.max_ahead_digits := by
  induction items generalizing acc with
  | nil => rfl
  | cons it rest ih => simp only [List.foldl_cons, ih]; rfl

theorem foldl_max_behind (items : List Row) (acc : WidthMaxes) :
    (items.foldl width_maxes_step acc).max_behind_digits
      = items.foldl
          (fun m it =>
            if it.isPrimary = false ∧ (0 < it.ahead ∨ 0 < it.behind) then
              max m (decimalLen it.behind)
            else m) acc.max_behind_digits := by
  induction items generalizing acc with
  | nil => rfl
  | cons it rest ih => simp only [List.foldl_cons, ih]; rfl

theorem foldl_max_wt_added (items : List Row) (acc : WidthMaxes) :
    (items.foldl width_maxes_step acc).max_wt_added_digits
      = items.foldl
          (fun m it =>
            match it.workingTreeDiff with
            | some d => if 0 < d.1 ∨ 0 < d.2 then max m (decimalLen d.1) else m
            | none => m) acc.max_wt_added_digits := by
  induction items generalizing acc with
  | nil => rfl
  | cons it rest ih => simp only [List.foldl_cons, ih]; rfl

theorem foldl_max_wt_deleted (items : List Row) (acc : WidthMaxes) :
    (items.foldl width_maxes_step acc).max_wt_deleted_digits
      = items.foldl
          (fun m it =>
            match it.workingTreeDiff with
            | some d => if 0 < d.1 ∨ 0 < d.2 then max m (decimalLen d.2) else m
            | none => m) acc.max_wt_deleted_digits := by
  induction items generalizing acc with
  | nil => rfl
  | cons it rest ih => simp only [List.foldl_cons, ih]; rfl

theorem foldl_max_br_added (items : List Row) (acc : WidthMaxes) :
    (items.foldl width_maxes_step acc).max_br_added_digits
      = items.foldl
          (fun m it =>
            if it.isPrimary = false
                ∧ (0 < it.branchDiff.1 ∨ 0 < it.branchDiff.2) then
              max m (decimalLen it.branchDiff.1)
            else m) acc.max_br_added_digits := by
  induction items generalizing acc with
  | nil => rfl
  | cons it rest ih => simp only [List.foldl_cons, ih]; rfl

theorem foldl_max_br_deleted (items : List Row) (acc : WidthMaxes) :
    (items.foldl width_maxes_step acc).max_br_deleted_digits
      = items.foldl
          (fun m it =>
            if it.isPrimary = false
                ∧ (0 < it.branchDiff.1 ∨ 0 < it.branchDiff.2) then
              max m (decimalLen it.branchDiff.2)
            else m) acc.max_br_deleted_digits := by
  induction items generalizing acc with
  | nil => rfl
  | cons it rest ih => simp only [List.foldl_cons, ih]; rfl

theorem foldl_max_up_ahead (items : List Row) (acc : WidthMaxes) :
    (items.foldl width_maxes_step acc).max_upstream_ahead_digits
      = items.foldl
          (fun m it =>
            match it.upstream with
            | some u => max m (decimalLen u.1)
            | none => m) acc.max_upstream_ahead_digits := by
  induction items generalizing acc with
  | nil => rfl
  | cons it rest ih => simp only [List.foldl_cons, ih]; rfl

theorem foldl_max_up_behind (items : List Row) (acc : WidthMaxes) :
    (items.foldl width_maxes_step acc).max_upstream_behind_digits
      = items.foldl
          (fun m it =>
            match it.upstream with
            | some u => max m (decimalLen u.2)
            | none => m) acc.max_upstream_behind_digits := by
  induction items generalizing acc with
  | nil => rfl
  | cons it rest ih => simp only [List.foldl_cons, ih]; rfl

theorem foldl_max_states (items : List Row) (acc : WidthMaxes) :
    (items.foldl width_maxes_step acc).max_states
      = items.foldl
          (fun m it =>
            match it.statesWidth with
            | some sw => max m sw
            | none => m) acc.max_states := by
  induction items generalizing acc with
  | nil => rfl
  | cons it rest ih => simp only [List.foldl_cons, ih]; rfl

theorem calculate_column_widths_eq_measures (items : List Row) (fc : Bool) :
    (calculate_column_widths items fc).1.branch
        = fit_header HEADER_BRANCH (branch_data_width items)
    ∧ (calculate_column_widths items fc).1.time
        = fit_header HEADER_AGE (time_data_width items)
    ∧ (calculate_column_widths items fc).1.message
        = fit_header HEADER_MESSAGE (message_data_width items)
    ∧ (calculate_column_widths items fc).1.working_diff.total
        = fit_header HEADER_WORKING_DIFF (working_diff_data_width items)
    ∧ (calculate_column_widths items fc).1.ahead_behind.total
        = fit_header HEADER_AHEAD_BEHIND (ahead_behind_data_width items)
    ∧ (calculate_column_widths items fc).1.branch_diff.total
        = fit_header HEADER_BRANCH_DIFF (branch_diff_data_width items)
    ∧ (calculate_column_widths items fc).1.upstream.total
        = fit_header HEADER_UPSTREAM (upstream_data_width items)
    ∧ (calculate_column_widths items fc).1.states
        = fit_header HEADER_STATE (states_data_width items)
    ∧ (calculate_column_widths items fc).1.ci_status = fit_header HEADER_CI 2
    ∧ (calculate_column_widths items fc).1.commit
        = max COMMIT_HASH_WIDTH HEADER_COMMIT.length := by
  have hb := foldl_max_branch items WidthMaxes.init
  have ht := foldl_max_time items WidthMaxes.init
  have hm := foldl_max_message items WidthMaxes.init
  have ha := foldl_max_ahead items WidthMaxes.init
  have hbh := foldl_max_behind items WidthMaxes.init
  have hwa := foldl_max_wt_added items WidthMaxes.init
  have hwd := foldl_max_wt_deleted items WidthMaxes.init
  have hba := foldl_max_br_added items WidthMaxes.init
  have hbd := foldl_max_br_deleted items WidthMaxes.init
  have hua := foldl_max_up_ahead items WidthMaxes.init
  have hub := foldl_max_up_behind items WidthMaxes.init
  have hs := foldl_max_states items WidthMaxes.init
  simp only [calculate_column_widths]
  refine ⟨?_, ?_, ?_, ?_, ?_, ?_, ?_, ?_, by trivial, by trivial⟩
  · rw [hb]; rfl
  · rw [ht]; rfl
  · rw [hm]; rfl
  · rw [hwa, hwd]; rfl
  · rw [ha, hbh]; rfl
  · rw [hba, hbd]; rfl
  · rw [hua, hub]; rfl
  · rw [hs]; rfl

theorem phase1_branch (ideal : ColumnWidths) (flags : ColumnDataFlags)
    (show_full : Bool) (mpw cw tw : Nat) :
    (phase1AndMessage ideal flags show_full mpw cw tw).1.branch
      = (try_allocate tw ideal.branch 2 true).1 := rfl

theorem layout_branch_eq (items : List Row) (sf fc : Bool) (tw : Nat) :
    (calculate_responsive_layout items sf fc tw).widths.branch
      = (try_allocate tw (calculate_column_widths items fc).1.branch 2 true).1 := by
  simp only [calculate_responsive_layout]
  set IW := calculate_column_widths items fc with hIW
  set mpw := fit_header HEADER_PATH (path_data_width items) with hmpw
  set cwdt := fit_header HEADER_COMMIT COMMIT_HASH_WIDTH with hcw
  set P := phase1AndMessage IW.1 IW.2 sf mpw cwdt tw with hP
  set Q := phase2 IW.1 IW.2 sf fc P.1 P.2 with hQ
  obtain ⟨-, -, xb, -, -, -, -, -, -, -, -, -, -, -⟩ := expand_spec Q.1 Q.2
  obtain ⟨-, e2b, -⟩ := phase2_spec IW.1 IW.2 sf fc P.1 P.2 Q hQ.symm
  rw [xb, e2b, hP, phase1_branch]

theorem try_allocate_first_mono (i W W' : Nat) (hle : W ≤ W')
    (h : 0 < (try_allocate W i 2 true).1) :
    0 < (try_allocate W' i 2 true).1 := by
  simp only [try_allocate] at h ⊢
  split_ifs at h ⊢ <;> simp_all <;> omega

/-- C1: for every dataset and every terminal width, the sum of the widths of
the visible columns plus one gap of 2 between each pair of consecutive
visible columns is at most the terminal width. -/
theorem claim_C1_visible_widths_fit_terminal (items : List Row)
    (sf fc : Bool) (tw : Nat) :
    sumW (calculate_responsive_layout items sf fc tw).widths
        + 2 * (cntW (calculate_responsive_layout items sf fc tw).widths - 1)
      ≤ tw := by
  obtain ⟨g, -⟩ := layout_spec items sf fc tw _ rfl
  rcases Nat.eq_zero_or_pos
      (cntW (calculate_responsive_layout items sf fc tw).widths) with h0 | hpos
  · have hz := sumW_eq_zero_of_cntW _ h0
    omega
  · omega

/-- C2 counterexample: in `calculate_column_widths` the path column's returned
width is the placeholder 0, strictly below its header's display width, so it
is not `max(data_width, header_display_width)` for any data width. -/
theorem claim_C2_counterexample :
    (calculate_column_widths [] false).1.path < HEADER_PATH.length := by decide

/-- C2 (amended): every column that is visible in the final layout has width
at least the display width of its header; and in `calculate_column_widths`
every column except path (whose ideal width is the placeholder 0, computed
later in `calculate_responsive_layout` as `max(path data width, header
width)`) has ideal width `max(data width, header display width)`. -/
theorem claim_C2_headers_never_truncate :
    (∀ (items : List Row) (sf fc : Bool) (tw : Nat),
      (0 < (calculate_responsive_layout items sf fc tw).widths.branch →
        HEADER_BRANCH.length ≤ (calculate_responsive_layout items sf fc tw).widths.branch)
      ∧ (0 < (calculate_responsive_layout items sf fc tw).widths.working_diff.total →
        HEADER_WORKING_DIFF.length
          ≤ (calculate_responsive_layout items sf fc tw).widths.working_diff.total)
      ∧ (0 < (calculate_responsive_layout items sf fc tw).widths.ahead_behind.total →
        HEADER_AHEAD_BEHIND.length
          ≤ (calculate_responsive_layout items sf fc tw).widths.ahead_behind.total)
      ∧ (0 < (calculate_responsive_layout items sf fc tw).widths.branch_diff.total →
        HEADER_BRANCH_DIFF.length
          ≤ (calculate_responsive_layout items sf fc tw).widths.branch_diff.total)
      ∧ (0 < (calculate_responsive_layout items sf fc tw).widths.states →
        HEADER_STATE.length ≤ (calculate_responsive_layout items sf fc tw).widths.states)
      ∧ (0 < (calculate_responsive_layout items sf fc tw).widths.path →
        HEADER_PATH.length ≤ (calculate_responsive_layout items sf fc tw).widths.path)
      ∧ (0 < (calculate_responsive_layout items sf fc tw).widths.upstream.total →
        HEADER_UPSTREAM.length
          ≤ (calculate_responsive_layout items sf fc tw).widths.upstream.total)
      ∧ (0 < (calculate_responsive_layout items sf fc tw).widths.time →
        HEADER_AGE.length ≤ (calculate_responsive_layout items sf fc tw).widths.time)
      ∧ (0 < (calculate_responsive_layout items sf fc tw).widths.ci_status →
        HEADER_CI.length ≤ (calculate_responsive_layout items sf fc tw).widths.ci_status)
      ∧ (0 < (calculate_responsive_layout items sf fc tw).widths.commit →
        HEADER_COMMIT.length ≤ (calculate_responsive_layout items sf fc tw).widths.commit)
      ∧ (0 < (calculate_responsive_layout items sf fc tw).widths.message →
        HEADER_MESSAGE.length ≤ (calculate_responsive_layout items sf fc tw).widths.message))
    ∧ (∀ (items : List Row) (fc : Bool),
      (calculate_column_widths items fc).1.branch
          = fit_header HEADER_BRANCH (branch_data_width items)
      ∧ (calculate_column_widths items fc).1.time
          = fit_header HEADER_AGE (time_data_width items)
      ∧ (calculate_column_widths items fc).1.message
          = fit_header HEADER_MESSAGE (message_data_width items)
      ∧ (calculate_column_widths items fc).1.working_diff.total
          = fit_header HEADER_WORKING_DIFF (working_diff_data_width items)
      ∧ (calculate_column_widths items fc).1.ahead_behind.total
          = fit_header HEADER_AHEAD_BEHIND (ahead_behind_data_width items)
      ∧ (calculate_column_widths items fc).1.branch_diff.total
          = fit_header HEADER_BRANCH_DIFF (branch_diff_data_width items)
      ∧ (calculate_column_widths items fc).1.upstream.total
          = fit_header HEADER_UPSTREAM (upstream_data_width items)
      ∧ (calculate_column_widths items fc).1.states
          = fit_header HEADER_STATE (states_data_width items)
      ∧ (calculate_column_widths items fc).1.ci_status = fit_header HEADER_CI 2
      ∧ (calculate_column_widths items fc).1.commit
          = max COMMIT_HASH_WIDTH HEADER_COMMIT.length
      ∧ (calculate_column_widths items fc).1.path = 0) := by
  constructor
  · intro items sf fc tw
    obtain ⟨-, sb, swd, sab, sbd, sst, sp, sup, st, sci, sc, sm, -⟩ :=
      layout_spec items sf fc tw _ rfl
    obtain ⟨hhb, hht, hhci, hhm, hhab, hhwd, hhbd, hhup, hhst, hhc⟩ :=
      ideal_widths_ge_header items fc
    refine ⟨?_, ?_, ?_, ?_, ?_, ?_, ?_, ?_, ?_, ?_, ?_⟩
    · intro hp
      rcases sb with h | h
      · omega
      · rw [h]; exact hhb
    · intro hp
      rcases swd with h | h
      · rw [h] at hp; exact absurd hp (by simp [DiffWidths.zero])
      · rw [h]; exact hhwd
    · intro hp
      rcases sab with h | h
      · rw [h] at hp; exact absurd hp (by simp [DiffWidths.zero])
      · rw [h]; exact hhab
    · intro hp
      rcases sbd with h | h
      · rw [h] at hp; exact absurd hp (by simp [DiffWidths.zero])
      · rw [h]; exact hhbd
    · intro hp
      rcases sst with h | h
      · omega
      · rw [h]; exact hhst
    · intro hp
      rcases sp with h | h
      · omega
      · rw [h]; exact Nat.le_max_right _ _
    · intro hp
      rcases sup with h | h
      · rw [h] at hp; exact absurd hp (by simp [DiffWidths.zero])
      · rw [h]; exact hhup
    · intro hp
      rcases st with h | h
      · omega
      · rw [h]; exact hht
    · intro hp
      rcases sci with h | h
      · omega
      · rw [h]; exact hhci
    · intro hp
      rcases sc with h | h
      · omega
      · rw [h]; exact Nat.le_max_right _ _
    · intro hp
      have hmm := sm hp
      have h1 : HEADER_MESSAGE.length ≤ MIN_MESSAGE := by decide
      omega
  · intro items fc
    obtain ⟨e1, e2, e3, e4, e5, e6, e7, e8, e9, e10⟩ :=
      calculate_column_widths_eq_measures items fc
    exact ⟨e1, e2, e3, e4, e5, e6, e7, e8, e9, e10, rfl⟩

/-- C2 witness: a concrete layout where the branch column is visible and
indeed at least as wide as its header. -/
theorem claim_C2_witness :
    0 < (calculate_responsive_layout [rowMinimal] false false 80).widths.branch
    ∧ HEADER_BRANCH.length
        ≤ (calculate_responsive_layout [rowMinimal] false false 80).widths.branch :=
  ⟨by decide,
    (claim_C2_headers_never_truncate.1 [rowMinimal] false false 80).1 (by decide)⟩

/-- C3 counterexample: visibility is not monotone in the terminal width — for
the dataset `[rowWdPath]` the time column is visible at terminal width 16 but
hidden at the larger width 17 (at 17 the higher-priority working-diff column
newly fits and consumes the budget). -/
theorem claim_C3_counterexample :
    0 < (calculate_responsive_layout [rowWdPath] false false 16).widths.time
    ∧ (calculate_responsive_layout [rowWdPath] false false 17).widths.time = 0 := by
  constructor
  · decide
  · decide

/-- C3 (amended): monotonicity holds for the highest-priority column — for a
fixed dataset, increasing the terminal width never hides the branch column;
for lower-priority columns it fails (see the counterexample). -/
theorem claim_C3_branch_monotone (items : List Row) (sf fc : Bool)
    (W W' : Nat) (hle : W ≤ W')
    (h : 0 < (calculate_responsive_layout items sf fc W).widths.branch) :
    0 < (calculate_responsive_layout items sf fc W').widths.branch := by
  rw [layout_branch_eq] at h ⊢
  exact try_allocate_first_mono _ W W' hle h

/-- C3 witness: the branch column is visible at width 6 and stays visible at
the larger width 7. -/
theorem claim_C3_witness :
    (6 ≤ 7 ∧ 0 < (calculate_responsive_layout [rowMinimal] false false 6).widths.branch)
    ∧ 0 < (calculate_responsive_layout [rowMinimal] false false 7).widths.branch :=
  ⟨⟨by decide, by decide⟩,
    claim_C3_branch_monotone [rowMinimal] false false 6 7 (by decide) (by decide)⟩

/-- C4: the CI status column's ideal width is always exactly 2, but its
has-data flag is `fetch_ci && any row has a PR status`, not the `fetch_ci`
flag alone — with CI requested and no row carrying a status the flag is
`false`, contradicting the source's own comment ("Only show if we attempted
to fetch CI data (regardless of whether any items have status)"). -/
theorem claim_C4_ci_flag :
    (∀ (items : List Row) (fc : Bool),
      (calculate_column_widths items fc).1.ci_status = 2)
    ∧ (calculate_column_widths [rowMinimal] true).2.ci_status = false := by
  constructor
  · intro items fc; rfl
  · decide

/-- C5: a column whose has-data flag is false can be visible in the final
layout only when the budget remaining after message placement was strictly
positive (it can only have been allocated in pass 2). -/
theorem claim_C5_empty_columns_need_positive_remainder (items : List Row)
    (sf fc : Bool) (tw : Nat) :
    ((calculate_column_widths items fc).2.working_diff = false →
      (calculate_responsive_layout items sf fc tw).widths.working_diff.total ≠ 0 →
      0 < remaining_after_message items sf fc tw)
    ∧ ((calculate_column_widths items fc).2.ahead_behind = false →
      (calculate_responsive_layout items sf fc tw).widths.ahead_behind.total ≠ 0 →
      0 < remaining_after_message items sf fc tw)
    ∧ ((calculate_column_widths items fc).2.branch_diff = false →
      (calculate_responsive_layout items sf fc tw).widths.branch_diff.total ≠ 0 →
      0 < remaining_after_message items sf fc tw)
    ∧ ((calculate_column_widths items fc).2.states = false →
      (calculate_responsive_layout items sf fc tw).widths.states ≠ 0 →
      0 < remaining_after_message items sf fc tw)
    ∧ ((calculate_column_widths items fc).2.upstream = false →
      (calculate_responsive_layout items sf fc tw).widths.upstream.total ≠ 0 →
      0 < remaining_after_message items sf fc tw)
    ∧ ((calculate_column_widths items fc).2.ci_status = false →
      (calculate_responsive_layout items sf fc tw).widths.ci_status ≠ 0 →
      0 < remaining_after_message items sf fc tw) := by
  obtain ⟨-, -, -, -, -, -, -, -, -, -, -, -, vwd, vab, vbd, vst, vup, vci⟩ :=
    layout_spec items sf fc tw _ rfl
  exact ⟨vwd, vab, vbd, vst, vup, vci⟩

/-- C5 witness: for the minimal dataset at terminal width 200 the (empty)
working-diff column is visible, and the post-message budget is positive. -/
theorem claim_C5_witness :
    ((calculate_column_widths [rowMinimal] false).2.working_diff = false
      ∧ (calculate_responsive_layout [rowMinimal] false false 200).widths.working_diff.total ≠ 0)
    ∧ 0 < remaining_after_message [rowMinimal] false false 200 :=
  ⟨⟨by decide, by decide⟩,
    (claim_C5_empty_columns_need_positive_remainder [rowMinimal] false false 200).1
      (by decide) (by decide)⟩

/-- C6: the branch column always starts at position 0; every other column's
position is 0 when the column is hidden, and otherwise equals the sum of the
widths of the visible columns before it in canonical order plus one gap of 2
per such visible column — hidden columns contribute neither width nor gap to
the walk. -/
theorem claim_C6_positions (items : List Row) (sf fc : Bool) (tw : Nat) :
    ∀ W : ColumnWidths, (calculate_responsive_layout items sf fc tw).widths = W →
      (calculate_responsive_layout items sf fc tw).positions.branch = 0
      ∧ ((calculate_responsive_layout items sf fc tw).positions.working_diff
          = if W.working_diff.total = 0 then 0 else W.branch + 2 * cnt1 W.branch)
      ∧ ((calculate_responsive_layout items sf fc tw).positions.ahead_behind
          = if W.ahead_behind.total = 0 then 0
            else W.branch + W.working_diff.total
              + 2 * (cnt1 W.branch + cnt1 W.working_diff.total))
      ∧ ((calculate_responsive_layout items sf fc tw).positions.branch_diff
          = if W.branch_diff.total = 0 then 0
            else W.branch + W.working_diff.total + W.ahead_behind.total
              + 2 * (cnt1 W.branch + cnt1 W.working_diff.total
                + cnt1 W.ahead_behind.total))
      ∧ ((calculate_responsive_layout items sf fc tw).positions.states
          = if W.states = 0 then 0
            else W.branch + W.working_diff.total + W.ahead_behind.total
                + W.branch_diff.total
              + 2 * (cnt1 W.branch + cnt1 W.working_diff.total
                + cnt1 W.ahead_behind.total + cnt1 W.branch_diff.total))
      ∧ ((calculate_responsive_layout items sf fc tw).positions.path
          = if W.path = 0 then 0
            else W.branch + W.working_diff.total + W.ahead_behind.total
                + W.branch_diff.total + W.states
              + 2 * (cnt1 W.branch + cnt1 W.working_diff.total
                + cnt1 W.ahead_behind.total + cnt1 W.branch_diff.total
                + cnt1 W.states))
      ∧ ((calculate_responsive_layout items sf fc tw).positions.upstream
          = if W.upstream.total = 0 then 0
            else W.branch + W.working_diff.total + W.ahead_behind.total
                + W.branch_diff.total + W.states + W.path
              + 2 * (cnt1 W.branch + cnt1 W.working_diff.total
                + cnt1 W.ahead_behind.total + cnt1 W.branch_diff.total
                + cnt1 W.states + cnt1 W.path))
      ∧ ((calculate_responsive_layout items sf fc tw).positions.time
          = if W.time = 0 then 0
            else W.branch + W.working_diff.total + W.ahead_behind.total
                + W.branch_diff.total + W.states + W.path + W.upstream.total
              + 2 * (cnt1 W.branch + cnt1 W.working_diff.total
                + cnt1 W.ahead_behind.total + cnt1 W.branch_diff.total
                + cnt1 W.states + cnt1 W.path + cnt1 W.upstream.total))
      ∧ ((calculate_responsive_layout items sf fc tw).positions.ci_status
          = if W.ci_status = 0 then 0
            else W.branch + W.working_diff.total + W.ahead_behind.total
                + W.branch_diff.total + W.states + W.path + W.upstream.total
                + W.time
              + 2 * (cnt1 W.branch + cnt1 W.working_diff.total
                + cnt1 W.ahead_behind.total + cnt1 W.branch_diff.total
                + cnt1 W.states + cnt1 W.path + cnt1 W.upstream.total
                + cnt1 W.time))
      ∧ ((calculate_responsive_layout items sf fc tw).positions.commit
          = if W.commit = 0 then 0
            else W.branch + W.working_diff.total + W.ahead_behind.total
                + W.branch_diff.total + W.states + W.path + W.upstream.total
                + W.time + W.ci_status
              + 2 * (cnt1 W.branch + cnt1 W.working_diff.total
                + cnt1 W.ahead_behind.total + cnt1 W.branch_diff.total
                + cnt1 W.states + cnt1 W.path + cnt1 W.upstream.total
                + cnt1 W.time + cnt1 W.ci_status))
      ∧ ((calculate_responsive_layout items sf fc tw).positions.message
          = if W.message = 0 then 0
            else W.branch + W.working_diff.total + W.ahead_behind.total
                + W.branch_diff.total + W.states + W.path + W.upstream.total
                + W.time + W.ci_status + W.commit
              + 2 * (cnt1 W.branch + cnt1 W.working_diff.total
                + cnt1 W.ahead_behind.total + cnt1 W.branch_diff.total
                + cnt1 W.states + cnt1 W.path + cnt1 W.upstream.total
                + cnt1 W.time + cnt1 W.ci_status + cnt1 W.commit)) := by
  intro W hW
  have hpos : (calculate_responsive_layout items sf fc tw).positions
      = computePositions (calculate_responsive_layout items sf fc tw).widths := rfl
  rw [hpos, hW]
  exact positions_spec W

/-- C6 witness: at a concrete input the branch column is visible at position
0 and the hidden working-diff column is assigned position 0. -/
theorem claim_C6_witness :
    (calculate_responsive_layout [rowWdPath] false false 16).widths
        = (calculate_responsive_layout [rowWdPath] false false 16).widths
    ∧ (calculate_responsive_layout [rowWdPath] false false 16).positions.branch = 0
    ∧ (calculate_responsive_layout [rowWdPath] false false 16).positions.working_diff
        = 0 := by
  refine ⟨rfl, ?_, ?_⟩
  · exact (claim_C6_positions [rowWdPath] false false 16 _ rfl).1
  · have h := (claim_C6_positions [rowWdPath] false false 16 _ rfl).2.1
    rw [h]
    decide

/-- C9: the allocator is total and its budget arithmetic saturates: the
budget never increases and, on success, the subtraction is exact; at terminal
width 0 every column of every dataset is hidden (sum of widths 0); on the
empty row set `calculate_column_widths` returns the all-headers widths with
every has-data flag false. -/
theorem claim_C9_totality :
    (∀ (r i s : Nat) (b : Bool), (try_allocate r i s b).2 ≤ r)
    ∧ (∀ (r i s : Nat) (b : Bool), 0 < (try_allocate r i s b).1 →
        (try_allocate r i s b).2 + (try_allocate r i s b).1
          + (if b then 0 else s) = r)
    ∧ (∀ (items : List Row) (sf fc : Bool),
        sumW (calculate_responsive_layout items sf fc 0).widths = 0)
    ∧ (∀ fc : Bool,
        calculate_column_widths [] fc
          = (⟨6, 3, 2, 7, ⟨6, 0, 0⟩, ⟨9, 0, 0⟩, ⟨6, 0, 0⟩, ⟨8, 0, 0⟩, 5, 8, 0⟩,
             ⟨false, false, false, false, false, false⟩)) := by
  refine ⟨fun r i s b => try_allocate_snd_le r i s b,
    fun r i s b h => try_allocate_exact r i s b h, ?_, ?_⟩
  · intro items sf fc
    obtain ⟨g, -⟩ := layout_spec items sf fc 0 _ rfl
    rcases Nat.eq_zero_or_pos
        (sumW (calculate_responsive_layout items sf fc 0).widths) with h0 | hpos
    · exact h0
    · have := cntW_pos_of_sumW _ hpos
      omega
  · intro fc
    cases fc <;> decide

/-- C9 witness: a successful allocation at a concrete budget is exact. -/
theorem claim_C9_witness :
    0 < (try_allocate 10 3 2 false).1
    ∧ (try_allocate 10 3 2 false).2 + (try_allocate 10 3 2 false).1
        + (if false then 0 else 2) = 10 :=
  ⟨by decide, claim_C9_totality.2.1 10 3 2 false (by decide)⟩

/-- C10: the realized message width is not capped by the dataset's ideal
message width — for the minimal dataset at terminal width 200 the ideal
message width is 7 but the post-pass-2 expansion realizes 92, still within
the absolute cap of 100. -/
theorem claim_C10_message_exceeds_ideal :
    (calculate_column_widths [rowMinimal] false).1.message = 7
    ∧ (calculate_responsive_layout [rowMinimal] false false 200).widths.message = 92
    ∧ (calculate_column_widths [rowMinimal] false).1.message
        < (calculate_responsive_layout [rowMinimal] false false 200).widths.message
    ∧ (calculate_responsive_layout [rowMinimal] false false 200).widths.message
        ≤ MAX_MESSAGE := by
  refine ⟨by decide, by decide, by decide, by decide⟩

/-- C7: for a fixed mask, a row's rendered grid has one width-1 column per
occupied singleton slot plus, when the working-tree slot is occupied, that
row's own glyph-run length (at least the one space of an empty run) — so all
rows with equal run lengths render at equal total width, and slots absent
from the mask contribute no width at all (the all-empty mask renders the
empty string).  Examples: with mask {branch-state, working-tree}, a row with
only the branch-state glyph X renders "X " and a row with only the run "Y"
renders " Y". -/
theorem claim_C7_position_mask_rendering :
    (∀ (m : PositionMask) (s : StatusSymbols),
      (render_with_mask s m).length
        = singleton_slot_count m
          + (if m.working_tree then max 1 s.working_tree.length else 0))
    ∧ (∀ s : StatusSymbols,
        render_with_mask s ⟨false, false, false, false⟩ = [])
    ∧ render_with_mask ⟨some 'X', none, none, [], []⟩ ⟨true, false, false, true⟩
        = ['X', ' ']
    ∧ render_with_mask ⟨none, none, none, ['Y'], []⟩ ⟨true, false, false, true⟩
        = [' ', 'Y'] := by
  refine ⟨?_, ?_, by decide, by decide⟩
  · intro m s
    rcases m with ⟨b1, b2, b3, b4⟩
    cases b1 <;> cases b2 <;> cases b3 <;> cases b4 <;>
      cases hw : s.working_tree <;>
      simp [render_with_mask, singleton_slot_count, hw] <;> omega
  · intro s
    rfl

/-- C8: when any row of the dataset carries a user-status suffix, every row's
status string is its grid padded on the right with spaces up to the dataset's
maximum grid width followed by the row's own suffix — so every suffix starts
at the same column (the grid width), a branch-only row padding entirely with
spaces; with no suffix anywhere, the bare grid is produced with no padding.
Example: with max grid width 2, a row with grid "A?" and suffix Z renders
"A?Z" while a gridless row with suffix W renders "  W". -/
theorem claim_C8_suffix_alignment :
    (∀ (s : StatusSymbols) (m : PositionMask) (g : Nat),
      (render_with_mask s m).length ≤ g →
      (render_status s m g true).length = g + s.user_status.length
      ∧ (render_status s m g true).drop g = s.user_status
      ∧ render_status s m g false = render_with_mask s m)
    ∧ render_status ⟨some 'A', none, none, ['?'], ['Z']⟩
        ⟨true, false, false, true⟩ 2 true = ['A', '?', 'Z']
    ∧ render_status ⟨none, none, none, [], ['W']⟩
        ⟨true, false, false, true⟩ 2 true = [' ', ' ', 'W'] := by
  refine ⟨?_, by decide, by decide⟩
  intro s m g h
  refine ⟨?_, ?_, rfl⟩
  · simp only [render_status, if_true, List.length_append,
      List.length_replicate]
    omega
  · simp only [render_status, if_true]
    have hlen : (render_with_mask s m
        ++ List.replicate (g - (render_with_mask s m).length) ' ').length = g := by
      simp only [List.length_append, List.length_replicate]
      omega
    nth_rewrite 1 [← hlen]
    rw [List.drop_left]

/-- C8 witness: the gridless row with suffix W, padded to max grid width 2,
has its suffix starting at column 2. -/
theorem claim_C8_witness :
    (render_with_mask ⟨none, none, none, [], ['W']⟩
        ⟨true, false, false, true⟩).length ≤ 2
    ∧ (render_status ⟨none, none, none, [], ['W']⟩
        ⟨true, false, false, true⟩ 2 true).drop 2 = ['W'] :=
  ⟨by decide,
    (claim_C8_suffix_alignment.1 ⟨none, none, none, [], ['W']⟩
      ⟨true, false, false, true⟩ 2 (by decide)).2.1⟩

end Worktrunk
